import Mathlib

/-!
# Avionics flight-control core: ground-link command handler and parachute controller

A shallow embedding of `Src/main.c` (both branches of `HAL_UART_RxCpltCallback` and
the initialisation of the sensor records in `main`) and of
`Src/ParachutesControl.c`, followed by the properties established about them.

Conventions of the embedding.

* `uint8_t` and `uint32_t` values are natural numbers reduced modulo `2^8` and
  `2^32` where the source increments them; `int` and `int32_t` values are
  integers, and the one `int` the source increments, `numDescents`, wraps around
  in two's complement like the 32-bit target.
* The altitude estimate is a C `double`.  The controller only ever compares
  altitudes with `<`, so the embedding is generic in the number type `R`: any
  type with a decidable `<` and an embedding of the integer constants.  No
  order law is assumed of `<`, hence every general theorem also covers IEEE
  comparison.
* `filterSensors`, `readAccel` and `readPressure` live in files that are not
  part of the sources at hand.  The filter is a parameter of every routine and
  the two sensor reads are inputs of every loop iteration.
* GPIO writes and phase writes of the parachute controller are recorded as a
  list of effects in program order.
-/

namespace Avionics

/-! ## Flight phases (FlightPhase.h) -/

/-- The flight phases, as enumerated by the `switch` of `parachutesControlTask`. -/
inductive FlightPhase
  | PRELAUNCH
  | ARM
  | BURN
  | COAST
  | DROGUE_DESCENT
  | MAIN_DESCENT
  | ABORT_COMMAND_RECEIVED
  | ABORT_OXIDIZER_PRESSURE
  | ABORT_UNSPECIFIED_REASON
  | ABORT_COMMUNICATION_ERROR
  deriving DecidableEq, Repr

open FlightPhase

/-- Modelled from the spec: the macro `IS_ABORT_PHASE` of `FlightPhase.h`, which is
not among the sources.  "Helper predicate is_abort(): true iff the current phase
is any abort variant." -/
def IS_ABORT_PHASE (p : FlightPhase) : Bool :=
  match p with
  | ABORT_COMMAND_RECEIVED => true
  | ABORT_OXIDIZER_PRESSURE => true
  | ABORT_UNSPECIFIED_REASON => true
  | ABORT_COMMUNICATION_ERROR => true
  | _ => false

/-! ## Ground-link command handler (main.c) -/

def LAUNCH_CMD_BYTE : Nat := 0x20
def ARM_CMD_BYTE : Nat := 0x21
def ABORT_CMD_BYTE : Nat := 0x2F
def RESET_AVIONICS_CMD_BYTE : Nat := 0x4F
def HEARTBEAT_BYTE : Nat := 0x46
def OPEN_INJECTION_VALVE : Nat := 0x2A
def CLOSE_INJECTION_VALVE : Nat := 0x2B

/-- `const int32_t HEARTBEAT_TIMEOUT = 3 * 60 * 1000;` -/
def HEARTBEAT_TIMEOUT : Int := 3 * 60 * 1000

/-- The file-scope control variables of `main.c` together with the phase cell of
`FlightPhase.c`. -/
structure ControlState where
  flightPhase : FlightPhase
  launchCmdReceived : Nat
  abortCmdReceived : Nat
  resetAvionicsCmdReceived : Nat
  heartbeatTimer : Int
  deriving DecidableEq, Repr

/-- Calls into `ValveControl.c` made by the handler. -/
inductive ValveCall
  | openInjectionValve
  | closeInjectionValve
  deriving DecidableEq, Repr

/-- Modelled from the spec: `getCurrentFlightPhase` of `FlightPhase.c`, which is not
among the sources.  "current(): acquires the phase mutex, returns the value." -/
def getCurrentFlightPhase (c : ControlState) : FlightPhase :=
  c.flightPhase

/-- Modelled from the spec: `newFlightPhase` of `FlightPhase.c`, which is not among
the sources.  "transition(to): acquires the phase mutex, overwrites the stored
value"; no ordering check is made. -/
def newFlightPhase (p : FlightPhase) (c : ControlState) : ControlState :=
  { c with flightPhase := p }

/-- The `huart->Instance == USART2` branch of `HAL_UART_RxCpltCallback`, for the
received byte `launchSystemsRxChar`.  Returns the control state after the call
and the valve calls made, in order. -/
def HAL_UART_RxCpltCallback_USART2 (launchSystemsRxChar : Nat) (c : ControlState) :
    ControlState × List ValveCall :=
  if launchSystemsRxChar = LAUNCH_CMD_BYTE then
    if ARM = getCurrentFlightPhase c then
      ({ c with launchCmdReceived := (c.launchCmdReceived + 1) % 256 }, [])
    else (c, [])
  else if launchSystemsRxChar = ARM_CMD_BYTE then
    if PRELAUNCH = getCurrentFlightPhase c then
      (newFlightPhase ARM c, [])
    else (c, [])
  else if launchSystemsRxChar = ABORT_CMD_BYTE then
    ({ c with abortCmdReceived := 1 }, [])
  else if launchSystemsRxChar = RESET_AVIONICS_CMD_BYTE then
    ({ c with resetAvionicsCmdReceived := 1 }, [])
  else if launchSystemsRxChar = HEARTBEAT_BYTE then
    ({ c with heartbeatTimer := HEARTBEAT_TIMEOUT }, [])
  else if launchSystemsRxChar = OPEN_INJECTION_VALVE then
    if IS_ABORT_PHASE (getCurrentFlightPhase c) then
      (c, [ValveCall.openInjectionValve])
    else (c, [])
  else if launchSystemsRxChar = CLOSE_INJECTION_VALVE then
    if IS_ABORT_PHASE (getCurrentFlightPhase c) then
      (c, [ValveCall.closeInjectionValve])
    else (c, [])
  else (c, [])

/-! ## Parachute controller (ParachutesControl.c) -/

def SPACE_PORT_AMERICA_ALTITUDE_ABOVE_SEA_LEVEL : Int := 1401
def MAIN_DEPLOYMENT_ALTITUDE : Int := 457 + 1401
def MONITOR_FOR_PARACHUTES_PERIOD : Int := 200
def NUM_DESCENTS_TO_TRIGGER_DROUGE : Int := 3
def KALMAN_FILTER_MAIN_TIMEOUT : Int := 10 * 60 * 1000

/-- The modulus of `uint32_t` arithmetic. -/
def UINT32_MODULUS : Nat := 4294967296

/-- The value a 32-bit `int` holds after an arithmetic result `x`: two's-complement
wrap-around into the range from -2147483648 to 2147483647. -/
def wrapInt32 (x : Int) : Int :=
  (x + 2147483648) % 4294967296 - 2147483648

/-- `struct KalmanStateVector` (AltitudeKalmanFilter.h): the three components the
task initialises. -/
structure KalmanStateVector (R : Type) where
  altitude : R
  velocity : R
  acceleration : R
  deriving DecidableEq, Repr

/-- The file-scope variables of `ParachutesControl.c`. -/
structure ModuleVars (R : Type) where
  numDescents : Int
  kalmanFilterState : KalmanStateVector R
  deriving DecidableEq, Repr

/-- The locals of a routine that survive a loop iteration. `parachutesControlBurnRoutine`
has no `elapsedTime` and leaves the field alone. -/
structure Locals (R : Type) where
  state : KalmanStateVector R
  elapsedTime : Nat
  deriving DecidableEq, Repr

/-- What `readAccel` and `readPressure` return on one loop iteration; `-1` is the
"failed to read values" sentinel. -/
structure SensorSample where
  currentAccel : Int
  currentPressure : Int
  deriving DecidableEq, Repr

/-- The e-match lines. -/
inductive Pin
  | DROGUE_PARACHUTE
  | MAIN_PARACHUTE
  deriving DecidableEq, Repr

/-- Observable actions of the parachute controller: `HAL_GPIO_WritePin` on an
e-match line (`true` is `GPIO_PIN_SET`) and `newFlightPhase`. -/
inductive Effect
  | gpioWritePin (pin : Pin) (set : Bool)
  | newFlightPhase (p : FlightPhase)
  deriving DecidableEq, Repr

def ejectDrogueParachute : Effect := Effect.gpioWritePin Pin.DROGUE_PARACHUTE true
def closeDrogueParachute : Effect := Effect.gpioWritePin Pin.DROGUE_PARACHUTE false
def ejectMainParachute : Effect := Effect.gpioWritePin Pin.MAIN_PARACHUTE true
def closeMainParachute : Effect := Effect.gpioWritePin Pin.MAIN_PARACHUTE false

/-- The type of `filterSensors(state, currentAccel, currentPressure, dt)`. -/
abbrev Filter (R : Type) := KalmanStateVector R → Int → Int → Int → KalmanStateVector R

/-- One loop iteration of a routine: the locals and file-scope variables after
it, the effects it performed in order, and whether it executed `return`. -/
structure Iteration (R : Type) where
  locals : Locals R
  vars : ModuleVars R
  effects : List Effect
  returned : Bool
  deriving DecidableEq, Repr

/-- `detectApogee`: reads the file-scope `numDescents`. -/
def detectApogee {R : Type} (m : ModuleVars R) : Int :=
  if m.numDescents ≥ NUM_DESCENTS_TO_TRIGGER_DROUGE then 1 else 0

section Routines

variable {R : Type} [LT R] [∀ a b : R, Decidable (a < b)] [IntCast R]

/-- `detectMainDeploymentAltitude`: compares the altitude of the state it is given with
`MAIN_DEPLOYMENT_ALTITUDE`. -/
def detectMainDeploymentAltitude (state : KalmanStateVector R) : Int :=
  if state.altitude < ((MAIN_DEPLOYMENT_ALTITUDE : Int) : R) then 1 else 0

/-- The condition `currentAccel == -1 || currentPressure == -1`. -/
def readFailed (s : SensorSample) : Bool :=
  s.currentAccel == -1 || s.currentPressure == -1

/-- The loop body of `parachutesControlBurnRoutine`; `phase` is what
`getCurrentFlightPhase()` returns after the delay. -/
def burnIteration (filterSensors : Filter R) (phase : FlightPhase)
    (m : ModuleVars R) (l : Locals R) (s : SensorSample) : Iteration R :=
  if phase ≠ BURN then
    { locals := l, vars := m, effects := [], returned := true }
  else if readFailed s then
    { locals := l, vars := m, effects := [], returned := false }
  else
    let state := filterSensors l.state s.currentAccel s.currentPressure MONITOR_FOR_PARACHUTES_PERIOD
    { locals := { l with state := state }, vars := m, effects := [], returned := false }

/-- The loop body of `parachutesControlCoastRoutine`. -/
def coastIteration (filterSensors : Filter R)
    (m : ModuleVars R) (l : Locals R) (s : SensorSample) : Iteration R :=
  let elapsedTime := (l.elapsedTime + MONITOR_FOR_PARACHUTES_PERIOD.toNat) % UINT32_MODULUS
  if readFailed s then
    { locals := { l with elapsedTime := elapsedTime }, vars := m, effects := [], returned := false }
  else
    let oldAltitude := l.state.altitude
    let state := filterSensors l.state s.currentAccel s.currentPressure MONITOR_FOR_PARACHUTES_PERIOD
    let m1 : ModuleVars R :=
      if state.altitude < oldAltitude then { m with numDescents := wrapInt32 (m.numDescents + 1) }
      else { m with numDescents := 0 }
    if detectApogee m1 ≠ 0 then
      { locals := { state := state, elapsedTime := elapsedTime }, vars := m1,
        effects := [ejectDrogueParachute, Effect.newFlightPhase DROGUE_DESCENT],
        returned := true }
    else
      { locals := { state := state, elapsedTime := elapsedTime }, vars := m1,
        effects := [], returned := false }

/-- The loop body of `parachutesControlDrogueDescentRoutine`.  The altitude test is
made on the file-scope `kalmanFilterState`, as in the source, not on the local
`state` that the filter has just updated. -/
def drogueDescentIteration (filterSensors : Filter R)
    (m : ModuleVars R) (l : Locals R) (s : SensorSample) : Iteration R :=
  let elapsedTime := (l.elapsedTime + MONITOR_FOR_PARACHUTES_PERIOD.toNat) % UINT32_MODULUS
  if readFailed s then
    { locals := { l with elapsedTime := elapsedTime }, vars := m, effects := [], returned := false }
  else
    let state := filterSensors l.state s.currentAccel s.currentPressure MONITOR_FOR_PARACHUTES_PERIOD
    if detectMainDeploymentAltitude m.kalmanFilterState ≠ 0
        ∨ (elapsedTime : Int) > KALMAN_FILTER_MAIN_TIMEOUT then
      { locals := { state := state, elapsedTime := elapsedTime }, vars := m,
        effects := [ejectMainParachute, Effect.newFlightPhase MAIN_DESCENT],
        returned := true }
    else
      { locals := { state := state, elapsedTime := elapsedTime }, vars := m,
        effects := [], returned := false }

/-- A routine run: where it stands after the samples it was given, the effects
of each iteration it executed (one entry per iteration, in order), and whether
it has returned. -/
structure RoutineRun (R : Type) where
  locals : Locals R
  vars : ModuleVars R
  trace : List (List Effect)
  returned : Bool
  deriving DecidableEq, Repr

/-- The `for (;;)` loop around a loop body: one sample per iteration, until the
body returns or the samples are used up. -/
def runLoop (body : ModuleVars R → Locals R → SensorSample → Iteration R) :
    ModuleVars R → Locals R → List SensorSample → RoutineRun R
  | m, l, [] => { locals := l, vars := m, trace := [], returned := false }
  | m, l, s :: rest =>
    let it := body m l s
    if it.returned then
      { locals := it.locals, vars := it.vars, trace := [it.effects], returned := true }
    else
      let r := runLoop body it.vars it.locals rest
      { r with trace := it.effects :: r.trace }

/-- `parachutesControlCoastRoutine`, entered with argument `state`, on the given
sequence of sensor samples. -/
def parachutesControlCoastRoutine (filterSensors : Filter R) (m : ModuleVars R)
    (state : KalmanStateVector R) (samples : List SensorSample) : RoutineRun R :=
  runLoop (coastIteration filterSensors) m { state := state, elapsedTime := 0 } samples

/-- `parachutesControlDrogueDescentRoutine`, entered with argument `state`, on the given
sequence of sensor samples. -/
def parachutesControlDrogueDescentRoutine (filterSensors : Filter R) (m : ModuleVars R)
    (state : KalmanStateVector R) (samples : List SensorSample) : RoutineRun R :=
  runLoop (drogueDescentIteration filterSensors) m { state := state, elapsedTime := 0 } samples

/-! ### The task loop

`parachutesControlTask` is embedded as a transition system.  The phase cell is
shared with the other tasks, so an execution interleaves writes to the cell made
elsewhere with steps of the parachute task; one step of the task runs it from
one read of its inputs to the next: the `switch` of the dispatcher, or one loop
iteration of the routine it is in. -/

/-- Where the parachute task stands: at the `switch` of `parachutesControlTask`, or
inside the loop of one of its routines, with the locals of that routine. -/
inductive Loc (R : Type)
  | dispatch
  | prelaunch
  | burn (l : Locals R)
  | coast (l : Locals R)
  | drogueDescent (l : Locals R)
  | mainDescent
  deriving DecidableEq, Repr

/-- What one step of the task reads from outside.  `arg` is the `state` argument a
routine is entered with: the routines declare the parameter and the call sites
in `parachutesControlTask` do not pass it, so the value is left open.
`mainDescentReturns` says whether `parachutesControlMainDescentRoutine` returns on this
step. -/
structure TaskInput (R : Type) where
  sample : SensorSample
  arg : KalmanStateVector R
  mainDescentReturns : Bool
  deriving DecidableEq, Repr

/-- The phase cell, the parachute task and everything the task has done so far
(`log`, oldest first). -/
structure TaskState (R : Type) where
  flightPhase : FlightPhase
  loc : Loc R
  vars : ModuleVars R
  log : List Effect
  deriving DecidableEq, Repr

/-- A step of an execution: another task (or the ground-link handler) writes the
phase cell, or the parachute task makes one step. -/
inductive Step (R : Type)
  | phaseWrite (p : FlightPhase)
  | task (i : TaskInput R)
  deriving DecidableEq, Repr

/-- The phase cell after the effects of an iteration: each `newFlightPhase`
overwrites it. -/
def phaseAfter (p : FlightPhase) : List Effect → FlightPhase
  | [] => p
  | Effect.newFlightPhase q :: rest => phaseAfter q rest
  | Effect.gpioWritePin _ _ :: rest => phaseAfter p rest

/-- Carries the outcome of a loop iteration into the task state: the effects are
performed, and the task is back at the dispatcher if the routine returned. -/
def commit (t : TaskState R) (inLoop : Locals R → Loc R) (it : Iteration R) : TaskState R :=
  { flightPhase := phaseAfter t.flightPhase it.effects
    loc := if it.returned then Loc.dispatch else inLoop it.locals
    vars := it.vars
    log := t.log ++ it.effects }

/-- The loop body of `parachutesControlPrelaunchRoutine`. -/
def prelaunchIteration (t : TaskState R) : TaskState R :=
  if t.flightPhase ≠ PRELAUNCH then { t with loc := Loc.dispatch } else t

/-- Modelled from the spec: `parachutesControlMainDescentRoutine`, which the task calls
and which is not among the sources.  "MAIN_DESCENT: quiescent": it drives no
line and requests no transition; whether it returns is left to the input. -/
def parachutesControlMainDescentRoutine (returns : Bool) (t : TaskState R) : TaskState R :=
  if returns then { t with loc := Loc.dispatch } else t

/-- The `switch (getCurrentFlightPhase())` of `parachutesControlTask`: enters the routine
of the phase read, or sleeps one period in an abort phase. -/
def dispatch (arg : KalmanStateVector R) (t : TaskState R) : TaskState R :=
  match t.flightPhase with
  | PRELAUNCH => { t with loc := Loc.prelaunch }
  | ARM => { t with loc := Loc.prelaunch }
  | BURN => { t with loc := Loc.burn { state := arg, elapsedTime := 0 } }
  | COAST => { t with loc := Loc.coast { state := arg, elapsedTime := 0 } }
  | DROGUE_DESCENT => { t with loc := Loc.drogueDescent { state := arg, elapsedTime := 0 } }
  | MAIN_DESCENT => { t with loc := Loc.mainDescent }
  | ABORT_COMMAND_RECEIVED => t
  | ABORT_OXIDIZER_PRESSURE => t
  | ABORT_UNSPECIFIED_REASON => t
  | ABORT_COMMUNICATION_ERROR => t

/-- One step of the parachute task. -/
def taskStep (filterSensors : Filter R) (i : TaskInput R) (t : TaskState R) : TaskState R :=
  match t.loc with
  | Loc.dispatch => dispatch i.arg t
  | Loc.prelaunch => prelaunchIteration t
  | Loc.burn l => commit t Loc.burn (burnIteration filterSensors t.flightPhase t.vars l i.sample)
  | Loc.coast l => commit t Loc.coast (coastIteration filterSensors t.vars l i.sample)
  | Loc.drogueDescent l =>
    commit t Loc.drogueDescent (drogueDescentIteration filterSensors t.vars l i.sample)
  | Loc.mainDescent => parachutesControlMainDescentRoutine i.mainDescentReturns t

/-- One step of an execution. -/
def step (filterSensors : Filter R) (t : TaskState R) : Step R → TaskState R
  | Step.phaseWrite p => { t with flightPhase := p }
  | Step.task i => taskStep filterSensors i t

/-- The state in which `parachutesControlTask` reaches its loop for the first time:
`numDescents` has its static initialiser, `kalmanFilterState` has just been set,
nothing has been done yet; `p` is what the phase cell holds. -/
def taskStart (p : FlightPhase) : TaskState R :=
  { flightPhase := p
    loc := Loc.dispatch
    vars :=
      { numDescents := 0
        kalmanFilterState :=
          { altitude := ((SPACE_PORT_AMERICA_ALTITUDE_ABOVE_SEA_LEVEL : Int) : R)
            velocity := ((0 : Int) : R)
            acceleration := ((0 : Int) : R) } }
    log := [] }

/-- `parachutesControlTask` along an execution that starts with phase `p`. -/
def parachutesControlTask (filterSensors : Filter R) (p : FlightPhase) (steps : List (Step R)) :
    TaskState R :=
  steps.foldl (step filterSensors) (taskStart p)

/-! ### Reference notions used to state the properties -/

/-- For each sample of a run that starts in `state`: `none` if the read failed,
else whether the filtered altitude is strictly below the altitude held before
that tick.  The state advances through the filter on every valid tick and is
retained on a failed one. -/
def descentObservations (filterSensors : Filter R) :
    KalmanStateVector R → List SensorSample → List (Option Bool)
  | _, [] => []
  | state, s :: rest =>
    if readFailed s then none :: descentObservations filterSensors state rest
    else
      let next := filterSensors state s.currentAccel s.currentPressure MONITOR_FOR_PARACHUTES_PERIOD
      some (decide (next.altitude < state.altitude)) :: descentObservations filterSensors next rest

/-- The three most recent valid ticks exist and each of them descended. -/
def lastThreeValidDescended (obs : List (Option Bool)) : Bool :=
  (obs.reduceOption.reverse.take 3) == [true, true, true]

/-- Tick `k` (counted from 0) closes three valid descending ticks in a row. -/
def apogeeTick (filterSensors : Filter R) (state : KalmanStateVector R)
    (samples : List SensorSample) (k : Nat) : Bool :=
  lastThreeValidDescended ((descentObservations filterSensors state samples).take (k + 1))

/-- The length of the run of descending ticks that ends the valid observations. -/
def descentStreak (obs : List (Option Bool)) : Nat :=
  (obs.reduceOption.reverse.takeWhile (fun b => b)).length

/-- Every write of `GPIO_PIN_SET` to the main e-match line in the log comes after a
write of `GPIO_PIN_SET` to the drogue e-match line. -/
def DrogueBeforeMain (log : List Effect) : Prop :=
  ∀ i : Nat, log[i]? = some ejectMainParachute →
    ∃ j : Nat, j < i ∧ log[j]? = some ejectDrogueParachute

/-- The invariant behind `DrogueBeforeMain`: the drogue line has been driven
whenever the phase cell holds DROGUE_DESCENT or the task is inside the
drogue-descent routine. -/
def DrogueLatched (t : TaskState R) : Prop :=
  (t.flightPhase = DROGUE_DESCENT → ejectDrogueParachute ∈ t.log) ∧
  (∀ l, t.loc = Loc.drogueDescent l → ejectDrogueParachute ∈ t.log) ∧
  DrogueBeforeMain t.log

end Routines

/-! ## The phase cell shared by the handler, the parachute task and the other tasks -/

section SharedPhase

variable {R : Type} [LT R] [∀ a b : R, Decidable (a < b)] [IntCast R]

/-- The control variables of `main.c`, whose `flightPhase` is the phase cell, together
with the parachute task. -/
structure FlightSystem (R : Type) where
  control : ControlState
  loc : Loc R
  vars : ModuleVars R
  log : List Effect
  deriving DecidableEq, Repr

/-- The parachute task of a system, reading the shared phase cell. -/
def FlightSystem.task (s : FlightSystem R) : TaskState R :=
  { flightPhase := s.control.flightPhase, loc := s.loc, vars := s.vars, log := s.log }

/-- A step of the system: the ground-link handler receives a byte, the parachute task
makes a step, or another task runs.  Modelled from the spec: the engine controller
and whatever ends the burn are not among the sources; of the phase they are only
taken to advance ARM to BURN ("on observing phase == ARM ... transitions the
phase to BURN") and BURN to COAST.  Such a task may leave the control variables as
`c`; a `c` whose phase is neither the present one nor such an advance is not a
step it can make and changes nothing. -/
inductive FlightStep (R : Type)
  | groundByte (rx : Nat)
  | parachuteTick (i : TaskInput R)
  | otherTask (c : ControlState)
  deriving DecidableEq, Repr

/-- One step of the system. -/
def flightStep (filterSensors : Filter R) (s : FlightSystem R) : FlightStep R → FlightSystem R
  | FlightStep.groundByte rx =>
    { s with control := (HAL_UART_RxCpltCallback_USART2 rx s.control).1 }
  | FlightStep.parachuteTick i =>
    { control := newFlightPhase (taskStep filterSensors i s.task).flightPhase s.control
      loc := (taskStep filterSensors i s.task).loc
      vars := (taskStep filterSensors i s.task).vars
      log := (taskStep filterSensors i s.task).log }
  | FlightStep.otherTask c =>
    if c.flightPhase = s.control.flightPhase
        ∨ (s.control.flightPhase = ARM ∧ c.flightPhase = BURN)
        ∨ (s.control.flightPhase = BURN ∧ c.flightPhase = COAST) then
      { s with control := c }
    else s

/-- The system when `parachutesControlTask` reaches its loop for the first time, with
control variables `c`. -/
def flightStart (c : ControlState) : FlightSystem R :=
  { control := c
    loc := (taskStart c.flightPhase : TaskState R).loc
    vars := (taskStart c.flightPhase : TaskState R).vars
    log := (taskStart c.flightPhase : TaskState R).log }

/-- The position of a normal phase in the order PRELAUNCH, ARM, BURN, COAST,
DROGUE_DESCENT, MAIN_DESCENT; an abort phase has none. -/
def normalRank : FlightPhase → Option Nat
  | PRELAUNCH => some 0
  | ARM => some 1
  | BURN => some 2
  | COAST => some 3
  | DROGUE_DESCENT => some 4
  | MAIN_DESCENT => some 5
  | _ => none

/-- Inside the coast routine the cell holds COAST and inside the drogue-descent routine
it holds DROGUE_DESCENT. -/
def RoutineMatchesPhase (s : FlightSystem R) : Prop :=
  (∀ l, s.loc = Loc.coast l → s.control.flightPhase = COAST) ∧
  (∀ l, s.loc = Loc.drogueDescent l → s.control.flightPhase = DROGUE_DESCENT)

end SharedPhase

/-! ## GPS ingress (main.c, the UART4 branch of the receive callback)

Characters are their byte values.  `NMEA_MAX_LENGTH` is a macro of `ReadGps.h`, which
is not among the sources; it is a parameter of the embedding.  The buffers are
lists; an index outside a list makes a write a no-operation, which does not occur
from the initial state as long as `NMEA_MAX_LENGTH` is at least 1. -/

/-- The character `'\r'`. -/
def CHAR_CR : Nat := 13

/-- The character `'\n'`. -/
def CHAR_LF : Nat := 10

/-- The character `'$'`. -/
def CHAR_DOLLAR : Nat := 36

/-- `char message[6] = "$GPGGA";` -/
def message : List Nat := [36, 71, 80, 71, 71, 65]

/-- The static variables of the UART4 branch and the two fields of `gpsData` that it
writes. -/
structure GpsIngress where
  rx_buffer : List Nat
  rx_index : Nat
  gpggaDetected : Nat
  buffer_ : List Nat
  parseFlag_ : Nat
  deriving DecidableEq, Repr

/-- `memcpy(dst, src, n)` on lists: the first `n` bytes of `dst` are replaced by those
of `src`. -/
def memcpy (dst src : List Nat) (n : Nat) : List Nat :=
  src.take n ++ dst.drop n

/-- The body of the `for` loop of the UART4 branch for one character `rx`; `mutexOk`
says whether `osMutexWait(gpsData->mutex_, 0)` returns `osOK`.  Returns the state
after the character and the frame copied into `gpsData->buffer_`, if one was. -/
def gpsIngressChar (NMEA_MAX_LENGTH : Nat) (g : GpsIngress) (rx : Nat) (mutexOk : Bool) :
    GpsIngress × Option (List Nat) :=
  if rx = CHAR_CR ∨ rx = CHAR_LF then
    if g.rx_index ≠ 0 ∧ g.rx_buffer[0]? = some CHAR_DOLLAR then
      let rx_buffer := g.rx_buffer.set g.rx_index 0
      let rx_index := g.rx_index + 1
      if mutexOk then
        ({ rx_buffer := rx_buffer, rx_index := 0, gpggaDetected := 0,
           buffer_ := memcpy g.buffer_ rx_buffer rx_index, parseFlag_ := 1 },
         some (rx_buffer.take rx_index))
      else
        ({ g with rx_buffer := rx_buffer, rx_index := 0, gpggaDetected := 0 }, none)
    else (g, none)
  else if rx = CHAR_DOLLAR ∨ g.rx_index = NMEA_MAX_LENGTH then
    ({ g with rx_buffer := g.rx_buffer.set 0 rx, rx_index := 1, gpggaDetected := 0 }, none)
  else if g.gpggaDetected = 0 then
    if g.rx_index ≥ 6 then
      ({ g with rx_buffer := g.rx_buffer.set g.rx_index rx, rx_index := g.rx_index + 1,
                gpggaDetected := 1 }, none)
    else if message[g.rx_index]? = some rx then
      ({ g with rx_buffer := g.rx_buffer.set g.rx_index rx, rx_index := g.rx_index + 1 }, none)
    else
      ({ g with rx_index := 0, gpggaDetected := 0 }, none)
  else
    ({ g with rx_buffer := g.rx_buffer.set g.rx_index rx, rx_index := g.rx_index + 1 }, none)

/-- The ingress on a stream of characters, each with the answer `osMutexWait` would give
at that moment: the state after the stream and the frames published, oldest
first. -/
def gpsIngress (NMEA_MAX_LENGTH : Nat) :
    GpsIngress → List (Nat × Bool) → GpsIngress × List (List Nat)
  | g, [] => (g, [])
  | g, (rx, mutexOk) :: rest =>
    let r := gpsIngressChar NMEA_MAX_LENGTH g rx mutexOk
    let out := gpsIngress NMEA_MAX_LENGTH r.1 rest
    (out.1, r.2.toList ++ out.2)

/-- The UART4 branch of `HAL_UART_RxCpltCallback`: the loop over the
`NMEA_MAX_LENGTH + 1` characters of `dma_rx_buffer`. -/
def HAL_UART_RxCpltCallback_UART4 (NMEA_MAX_LENGTH : Nat) (dma_rx_buffer : List Nat)
    (mutexOk : Bool) (g : GpsIngress) : GpsIngress × List (List Nat) :=
  gpsIngress NMEA_MAX_LENGTH g
    ((List.range (NMEA_MAX_LENGTH + 1)).map (fun i => (dma_rx_buffer.getD i 0, mutexOk)))

/-- The ingress before the first character: the statics are zero, and `gpsData` comes
from `calloc`. -/
def gpsStart (NMEA_MAX_LENGTH : Nat) : GpsIngress :=
  { rx_buffer := List.replicate (NMEA_MAX_LENGTH + 1) 0
    rx_index := 0
    gpggaDetected := 0
    buffer_ := List.replicate (NMEA_MAX_LENGTH + 1) 0
    parseFlag_ := 0 }

/-- A line terminator. -/
def isTerminator (rx : Nat) : Prop := rx = CHAR_CR ∨ rx = CHAR_LF

instance (rx : Nat) : Decidable (isTerminator rx) := by
  unfold isTerminator; exact inferInstance

/-- A character that neither starts nor ends a frame. -/
def isPlain (rx : Nat) : Prop := rx ≠ CHAR_DOLLAR ∧ rx ≠ CHAR_CR ∧ rx ≠ CHAR_LF

instance (rx : Nat) : Decidable (isPlain rx) := by
  unfold isPlain; exact inferInstance

/-- No frame is being accumulated: the index is 0 or the buffer does not start with
`'$'`; a terminator does nothing in such a state. -/
def GpsIdle (g : GpsIngress) : Prop :=
  g.rx_index = 0 ∨ g.rx_buffer[0]? ≠ some CHAR_DOLLAR

/-- With the index at 0, `gpggaDetected` is 0. -/
def GpsFlagReset (g : GpsIngress) : Prop :=
  g.rx_index = 0 → g.gpggaDetected = 0

/-- The ingress has accumulated exactly the characters `pfx`. -/
def GpsHolds (NMEA_MAX_LENGTH : Nat) (g : GpsIngress) (pfx : List Nat) : Prop :=
  g.rx_index = pfx.length ∧ g.rx_buffer.take pfx.length = pfx ∧
  g.rx_buffer.length = NMEA_MAX_LENGTH + 1 ∧ pfx.length ≤ NMEA_MAX_LENGTH

/-! ### Test doubles for the filter -/

/-- A stand-in for `filterSensors` over the integers: the altitude falls by one
metre on every call. -/
def descendingFilter : Filter Int :=
  fun state _ _ _ => { state with altitude := state.altitude - 1 }

/-- A sample with both reads valid. -/
def validSample : SensorSample := { currentAccel := 0, currentPressure := 1013 }

/-- A sample with both reads failed. -/
def failedSample : SensorSample := { currentAccel := -1, currentPressure := -1 }

/-- A task step that reads `validSample`; a routine entered on it starts at 9000 m. -/
def validInput : TaskInput Int :=
  { sample := validSample
    arg := { altitude := 9000, velocity := 0, acceleration := 0 }
    mainDescentReturns := false }

/-! ## Further definitions: buffer accesses, sensor records, byte and sample streams -/

/-- The indices at which the loop body of the UART4 branch writes `rx_buffer` for one
character: the NUL at the terminator, index 0 on a restart, `rx_index` on an
append. -/
def gpsWriteIndices (NMEA_MAX_LENGTH : Nat) (g : GpsIngress) (rx : Nat) : List Nat :=
  if rx = CHAR_CR ∨ rx = CHAR_LF then
    if g.rx_index ≠ 0 ∧ g.rx_buffer[0]? = some CHAR_DOLLAR then [g.rx_index] else []
  else if rx = CHAR_DOLLAR ∨ g.rx_index = NMEA_MAX_LENGTH then [0]
  else if g.gpggaDetected = 0 then
    if g.rx_index ≥ 6 then [g.rx_index]
    else if message[g.rx_index]? = some rx then [g.rx_index]
    else []
  else [g.rx_index]

/-- The indices at which the loop body of the UART4 branch reads `message` for one
character: `message[rx_index]` is evaluated only after `rx_index >= 6` has failed. -/
def gpsMessageReadIndices (NMEA_MAX_LENGTH : Nat) (g : GpsIngress) (rx : Nat) : List Nat :=
  if rx = CHAR_CR ∨ rx = CHAR_LF then []
  else if rx = CHAR_DOLLAR ∨ g.rx_index = NMEA_MAX_LENGTH then []
  else if g.gpggaDetected = 0 then
    if g.rx_index ≥ 6 then [] else [g.rx_index]
  else []

/-- The data fields of the sensor records that `main` allocates and initialises (the
mutex handles and the GPS record, which comes zeroed from `calloc`, are left
out). -/
structure SensorRecords where
  accelX_ : Int
  accelY_ : Int
  accelZ_ : Int
  gyroX_ : Int
  gyroY_ : Int
  gyroZ_ : Int
  magnetoX_ : Int
  magnetoY_ : Int
  magnetoZ_ : Int
  barometerPressure_ : Int
  barometerTemperature_ : Int
  combustionChamberPressure_ : Int
  oxidizerTankPressure_ : Int
  deriving DecidableEq, Repr

/-- The values `main` assigns to the records before the tasks are created. -/
def mainSensorRecords : SensorRecords :=
  { accelX_ := -1
    accelY_ := -2
    accelZ_ := -3
    gyroX_ := -4
    gyroY_ := -5
    gyroZ_ := -6
    magnetoX_ := -7
    magnetoY_ := -8
    magnetoZ_ := -9
    barometerPressure_ := -10
    barometerTemperature_ := -11
    combustionChamberPressure_ := -12
    oxidizerTankPressure_ := -17 }

/-- All the fields of the records, in the order `main` assigns them. -/
def SensorRecords.fields (r : SensorRecords) : List Int :=
  [r.accelX_, r.accelY_, r.accelZ_, r.gyroX_, r.gyroY_, r.gyroZ_, r.magnetoX_, r.magnetoY_,
    r.magnetoZ_, r.barometerPressure_, r.barometerTemperature_, r.combustionChamberPressure_,
    r.oxidizerTankPressure_]

/-- The sentinel the parachute routines compare `readAccel` and `readPressure` with. -/
def READ_FAILED_SENTINEL : Int := -1

/-- The control state after the handler has received the bytes of a list, one call per
byte. -/
def receiveBytes (bytes : List Nat) (c : ControlState) : ControlState :=
  bytes.foldl (fun s rx => (HAL_UART_RxCpltCallback_USART2 rx s).1) c

/-- The sensor samples read by the task steps of an execution, in order. -/
def samplesOf {R : Type} : List (Step R) → List SensorSample
  | [] => []
  | Step.phaseWrite _ :: rest => samplesOf rest
  | Step.task i :: rest => i.sample :: samplesOf rest

/-! ## Properties of the ground-link command handler -/

/-- C8: on the LAUNCH byte 0x20 the handler increments the 8-bit launch counter
when the phase is ARM and changes nothing else; in any other phase the whole
control state (counter, phase, abort and reset latches, heartbeat timer) is
unchanged and no valve is called. -/
theorem launch_byte_counts_only_in_arm (c : ControlState) :
    (c.flightPhase = ARM →
      HAL_UART_RxCpltCallback_USART2 0x20 c =
        ({ c with launchCmdReceived := (c.launchCmdReceived + 1) % 256 }, [])) ∧
    (c.flightPhase ≠ ARM → HAL_UART_RxCpltCallback_USART2 0x20 c = (c, [])) := by
  constructor
  · intro h
    simp [HAL_UART_RxCpltCallback_USART2, LAUNCH_CMD_BYTE, getCurrentFlightPhase, h]
  · intro h
    have h1 : ¬ ARM = c.flightPhase := fun e => h e.symm
    simp [HAL_UART_RxCpltCallback_USART2, LAUNCH_CMD_BYTE, getCurrentFlightPhase, h1]

/-- Witness of C8: a LAUNCH byte in ARM with the counter at 4, and one in COAST. -/
theorem launch_byte_counts_only_in_arm_witness :
    HAL_UART_RxCpltCallback_USART2 0x20
        { flightPhase := ARM, launchCmdReceived := 4, abortCmdReceived := 0,
          resetAvionicsCmdReceived := 0, heartbeatTimer := 1000 } =
      ({ flightPhase := ARM, launchCmdReceived := 5, abortCmdReceived := 0,
         resetAvionicsCmdReceived := 0, heartbeatTimer := 1000 }, []) ∧
    HAL_UART_RxCpltCallback_USART2 0x20
        { flightPhase := COAST, launchCmdReceived := 4, abortCmdReceived := 0,
          resetAvionicsCmdReceived := 0, heartbeatTimer := 1000 } =
      ({ flightPhase := COAST, launchCmdReceived := 4, abortCmdReceived := 0,
         resetAvionicsCmdReceived := 0, heartbeatTimer := 1000 }, []) :=
  ⟨(launch_byte_counts_only_in_arm
      { flightPhase := ARM, launchCmdReceived := 4, abortCmdReceived := 0,
        resetAvionicsCmdReceived := 0, heartbeatTimer := 1000 }).1 rfl,
   (launch_byte_counts_only_in_arm
      { flightPhase := COAST, launchCmdReceived := 4, abortCmdReceived := 0,
        resetAvionicsCmdReceived := 0, heartbeatTimer := 1000 }).2 (by decide)⟩

/-- C9: on the ARM byte 0x21 the phase becomes ARM if it was PRELAUNCH and is
unchanged otherwise; no flag, counter or timer changes and no valve is called in
either case. -/
theorem arm_byte_only_from_prelaunch (c : ControlState) :
    (c.flightPhase = PRELAUNCH →
      HAL_UART_RxCpltCallback_USART2 0x21 c = ({ c with flightPhase := ARM }, [])) ∧
    (c.flightPhase ≠ PRELAUNCH → HAL_UART_RxCpltCallback_USART2 0x21 c = (c, [])) := by
  constructor
  · intro h
    simp [HAL_UART_RxCpltCallback_USART2, LAUNCH_CMD_BYTE, ARM_CMD_BYTE, getCurrentFlightPhase,
      newFlightPhase, h]
  · intro h
    have h1 : ¬ PRELAUNCH = c.flightPhase := fun e => h e.symm
    simp [HAL_UART_RxCpltCallback_USART2, LAUNCH_CMD_BYTE, ARM_CMD_BYTE, getCurrentFlightPhase, h1]

/-- Witness of C9: an ARM byte in PRELAUNCH, and one in BURN. -/
theorem arm_byte_only_from_prelaunch_witness :
    HAL_UART_RxCpltCallback_USART2 0x21
        { flightPhase := PRELAUNCH, launchCmdReceived := 2, abortCmdReceived := 0,
          resetAvionicsCmdReceived := 1, heartbeatTimer := 77 } =
      ({ flightPhase := ARM, launchCmdReceived := 2, abortCmdReceived := 0,
         resetAvionicsCmdReceived := 1, heartbeatTimer := 77 }, []) ∧
    HAL_UART_RxCpltCallback_USART2 0x21
        { flightPhase := BURN, launchCmdReceived := 2, abortCmdReceived := 0,
          resetAvionicsCmdReceived := 1, heartbeatTimer := 77 } =
      ({ flightPhase := BURN, launchCmdReceived := 2, abortCmdReceived := 0,
         resetAvionicsCmdReceived := 1, heartbeatTimer := 77 }, []) :=
  ⟨(arm_byte_only_from_prelaunch
      { flightPhase := PRELAUNCH, launchCmdReceived := 2, abortCmdReceived := 0,
        resetAvionicsCmdReceived := 1, heartbeatTimer := 77 }).1 rfl,
   (arm_byte_only_from_prelaunch
      { flightPhase := BURN, launchCmdReceived := 2, abortCmdReceived := 0,
        resetAvionicsCmdReceived := 1, heartbeatTimer := 77 }).2 (by decide)⟩

/-- C10: in every phase the ABORT byte 0x2F sets `abortCmdReceived` to 1 and the
RESET byte 0x4F sets `resetAvionicsCmdReceived` to 1; the phase cell, the other
latch, the launch counter and the heartbeat timer keep their values and no valve
is called. -/
theorem abort_and_reset_bytes_set_only_their_latch (c : ControlState) :
    HAL_UART_RxCpltCallback_USART2 0x2F c =
      ({ flightPhase := c.flightPhase, launchCmdReceived := c.launchCmdReceived,
         abortCmdReceived := 1, resetAvionicsCmdReceived := c.resetAvionicsCmdReceived,
         heartbeatTimer := c.heartbeatTimer }, []) ∧
    HAL_UART_RxCpltCallback_USART2 0x4F c =
      ({ flightPhase := c.flightPhase, launchCmdReceived := c.launchCmdReceived,
         abortCmdReceived := c.abortCmdReceived, resetAvionicsCmdReceived := 1,
         heartbeatTimer := c.heartbeatTimer }, []) := by
  constructor <;>
    simp [HAL_UART_RxCpltCallback_USART2, LAUNCH_CMD_BYTE, ARM_CMD_BYTE, ABORT_CMD_BYTE,
      RESET_AVIONICS_CMD_BYTE]

/-! ## Properties of one loop iteration of the parachute routines -/

section IterationProperties

variable {R : Type} [LT R] [∀ a b : R, Decidable (a < b)]

theorem readFailed_eq_true_iff (s : SensorSample) :
    readFailed s = true ↔ (s.currentAccel = -1 ∨ s.currentPressure = -1) := by
  simp [readFailed]

theorem readFailed_eq_false_iff (s : SensorSample) :
    readFailed s = false ↔ (s.currentAccel ≠ -1 ∧ s.currentPressure ≠ -1) := by
  simp [readFailed]

theorem wrapInt32_of_small (x : Int) (hlo : -2147483648 ≤ x) (hhi : x ≤ 2147483647) :
    wrapInt32 x = x := by
  unfold wrapInt32
  omega

/-- C4 (as amended): on a valid tick of the coast routine, if the filtered altitude is
strictly below the altitude held before the tick, the counter `numDescents`
becomes `n + 1` for every prior value `n` of the `int` range below `INT_MAX`, which is
2147483647; if it is not below (equal or greater), the counter becomes 0 whatever
its prior value. -/
theorem coast_counter_increments_or_resets (filterSensors : Filter R) (m : ModuleVars R)
    (l : Locals R) (s : SensorSample)
    (hAccel : s.currentAccel ≠ -1) (hPressure : s.currentPressure ≠ -1) :
    ((filterSensors l.state s.currentAccel s.currentPressure 200).altitude < l.state.altitude →
      -2147483648 ≤ m.numDescents → m.numDescents < 2147483647 →
      (coastIteration filterSensors m l s).vars.numDescents = m.numDescents + 1) ∧
    (¬ (filterSensors l.state s.currentAccel s.currentPressure 200).altitude < l.state.altitude →
      (coastIteration filterSensors m l s).vars.numDescents = 0) := by
  have hv : readFailed s = false := (readFailed_eq_false_iff s).2 ⟨hAccel, hPressure⟩
  constructor
  · intro h hlo hhi
    have h1 : (filterSensors l.state s.currentAccel s.currentPressure
        MONITOR_FOR_PARACHUTES_PERIOD).altitude < l.state.altitude := h
    have hw : wrapInt32 (m.numDescents + 1) = m.numDescents + 1 :=
      wrapInt32_of_small _ (by omega) (by omega)
    unfold coastIteration
    simp only [hv, h1, if_true, if_false, Bool.false_eq_true]
    split_ifs <;> exact hw
  · intro h
    have h1 : ¬ (filterSensors l.state s.currentAccel s.currentPressure
        MONITOR_FOR_PARACHUTES_PERIOD).altitude < l.state.altitude := h
    unfold coastIteration
    simp only [hv, h1, if_true, if_false, Bool.false_eq_true]
    split_ifs <;> rfl

/-- Witness of C4 (as amended): with the counter at 7 and at 2, a descending tick and a
level tick. -/
theorem coast_counter_increments_or_resets_witness :
    (coastIteration descendingFilter
        { numDescents := 7, kalmanFilterState := { altitude := 1401, velocity := 0, acceleration := 0 } }
        { state := { altitude := 5000, velocity := 0, acceleration := 0 }, elapsedTime := 0 }
        validSample).vars.numDescents = 7 + 1 ∧
    (coastIteration (fun state _ _ _ => state)
        { numDescents := 2, kalmanFilterState := { altitude := (1401 : Int), velocity := 0, acceleration := 0 } }
        { state := { altitude := 5000, velocity := 0, acceleration := 0 }, elapsedTime := 0 }
        validSample).vars.numDescents = 0 :=
  ⟨(coast_counter_increments_or_resets descendingFilter
      { numDescents := 7, kalmanFilterState := { altitude := 1401, velocity := 0, acceleration := 0 } }
      { state := { altitude := 5000, velocity := 0, acceleration := 0 }, elapsedTime := 0 }
      validSample (by decide) (by decide)).1 (by decide) (by decide) (by decide),
   (coast_counter_increments_or_resets (fun state _ _ _ => state)
      { numDescents := 2, kalmanFilterState := { altitude := (1401 : Int), velocity := 0, acceleration := 0 } }
      { state := { altitude := 5000, velocity := 0, acceleration := 0 }, elapsedTime := 0 }
      validSample (by decide) (by decide)).2 (by decide)⟩

/-- C4 (counterexample): with the counter at `INT_MAX`, a valid descending tick does not
make it `INT_MAX + 1`: the 32-bit increment wraps to -2147483648, which is below the
trigger, so the tick deploys nothing. -/
theorem coast_counter_wraps_at_int_max :
    (coastIteration descendingFilter
        { numDescents := 2147483647,
          kalmanFilterState := { altitude := 1401, velocity := 0, acceleration := 0 } }
        { state := { altitude := 5000, velocity := 0, acceleration := 0 }, elapsedTime := 0 }
        validSample).vars.numDescents = -2147483648 ∧
    (coastIteration descendingFilter
        { numDescents := 2147483647,
          kalmanFilterState := { altitude := 1401, velocity := 0, acceleration := 0 } }
        { state := { altitude := 5000, velocity := 0, acceleration := 0 }, elapsedTime := 0 }
        validSample).vars.numDescents ≠ 2147483647 + 1 ∧
    (coastIteration descendingFilter
        { numDescents := 2147483647,
          kalmanFilterState := { altitude := 1401, velocity := 0, acceleration := 0 } }
        { state := { altitude := 5000, velocity := 0, acceleration := 0 }, elapsedTime := 0 }
        validSample).effects = [] := by
  decide

/-- C5: a tick of the burn, coast or drogue-descent routine on which the
acceleration or the pressure read is the sentinel -1 is skipped: the estimator
state and the file-scope variables (`numDescents` among them) are what they
were, no e-match line is driven and no transition is requested.  The coast and
drogue-descent routines only advance their elapsed time and loop; the burn
routine returns if the phase has left BURN and loops otherwise. -/
theorem failed_read_skips_the_tick [IntCast R] (filterSensors : Filter R) (phase : FlightPhase)
    (m : ModuleVars R) (l : Locals R) (s : SensorSample)
    (h : s.currentAccel = -1 ∨ s.currentPressure = -1) :
    burnIteration filterSensors phase m l s =
      { locals := l, vars := m, effects := [], returned := decide (phase ≠ BURN) } ∧
    coastIteration filterSensors m l s =
      { locals := { state := l.state, elapsedTime := (l.elapsedTime + 200) % 4294967296 },
        vars := m, effects := [], returned := false } ∧
    drogueDescentIteration filterSensors m l s =
      { locals := { state := l.state, elapsedTime := (l.elapsedTime + 200) % 4294967296 },
        vars := m, effects := [], returned := false } := by
  have hf : readFailed s = true := (readFailed_eq_true_iff s).2 h
  refine ⟨?_, ?_, ?_⟩
  · by_cases hp : phase = BURN <;> simp [burnIteration, hf, hp]
  · simp [coastIteration, hf, MONITOR_FOR_PARACHUTES_PERIOD, UINT32_MODULUS]
  · simp [drogueDescentIteration, hf, MONITOR_FOR_PARACHUTES_PERIOD, UINT32_MODULUS]

/-- Witness of C5: a failed pressure read with the counter at 2. -/
theorem failed_read_skips_the_tick_witness :
    burnIteration descendingFilter BURN
        { numDescents := 2, kalmanFilterState := { altitude := 1401, velocity := 0, acceleration := 0 } }
        { state := { altitude := 5000, velocity := 0, acceleration := 0 }, elapsedTime := 400 }
        { currentAccel := 12, currentPressure := -1 } =
      { locals := { state := { altitude := 5000, velocity := 0, acceleration := 0 }, elapsedTime := 400 },
        vars := { numDescents := 2,
                  kalmanFilterState := { altitude := 1401, velocity := 0, acceleration := 0 } },
        effects := [], returned := decide (BURN ≠ BURN) } ∧
    coastIteration descendingFilter
        { numDescents := 2, kalmanFilterState := { altitude := 1401, velocity := 0, acceleration := 0 } }
        { state := { altitude := 5000, velocity := 0, acceleration := 0 }, elapsedTime := 400 }
        { currentAccel := 12, currentPressure := -1 } =
      { locals := { state := { altitude := 5000, velocity := 0, acceleration := 0 },
                    elapsedTime := (400 + 200) % 4294967296 },
        vars := { numDescents := 2,
                  kalmanFilterState := { altitude := 1401, velocity := 0, acceleration := 0 } },
        effects := [], returned := false } ∧
    drogueDescentIteration descendingFilter
        { numDescents := 2, kalmanFilterState := { altitude := 1401, velocity := 0, acceleration := 0 } }
        { state := { altitude := 5000, velocity := 0, acceleration := 0 }, elapsedTime := 400 }
        { currentAccel := 12, currentPressure := -1 } =
      { locals := { state := { altitude := 5000, velocity := 0, acceleration := 0 },
                    elapsedTime := (400 + 200) % 4294967296 },
        vars := { numDescents := 2,
                  kalmanFilterState := { altitude := 1401, velocity := 0, acceleration := 0 } },
        effects := [], returned := false } :=
  failed_read_skips_the_tick descendingFilter BURN
    { numDescents := 2, kalmanFilterState := { altitude := 1401, velocity := 0, acceleration := 0 } }
    { state := { altitude := 5000, velocity := 0, acceleration := 0 }, elapsedTime := 400 }
    { currentAccel := 12, currentPressure := -1 } (Or.inr rfl)

end IterationProperties


/-! ## Properties of the routines over a sequence of ticks -/

theorem runLoop_cons {R : Type} (body : ModuleVars R → Locals R → SensorSample → Iteration R)
    (m : ModuleVars R) (l : Locals R) (s : SensorSample) (rest : List SensorSample) :
    runLoop body m l (s :: rest) =
      if (body m l s).returned then
        { locals := (body m l s).locals, vars := (body m l s).vars,
          trace := [(body m l s).effects], returned := true }
      else
        { runLoop body (body m l s).vars (body m l s).locals rest with
          trace := (body m l s).effects :: (runLoop body (body m l s).vars (body m l s).locals rest).trace } := by
  rfl

section CoastRun

variable {R : Type} [LT R] [∀ a b : R, Decidable (a < b)]

theorem lastThreeValidDescended_eq_streak (obs : List (Option Bool)) :
    lastThreeValidDescended obs = decide (3 ≤ descentStreak obs) := by
  unfold lastThreeValidDescended descentStreak
  generalize obs.reduceOption.reverse = v
  rcases v with _ | ⟨a, _ | ⟨b, _ | ⟨c, v⟩⟩⟩ <;> try cases a <;> try cases b <;> try cases c
  all_goals simp [List.takeWhile]

theorem descentStreak_append_none (obs : List (Option Bool)) :
    descentStreak (obs ++ [none]) = descentStreak obs := by
  simp [descentStreak, List.reduceOption_append]

theorem descentStreak_append_some (obs : List (Option Bool)) (b : Bool) :
    descentStreak (obs ++ [some b]) = if b then descentStreak obs + 1 else 0 := by
  cases b <;> simp [descentStreak, List.reduceOption_append, List.takeWhile]

theorem coastIteration_failed (filterSensors : Filter R) (m : ModuleVars R) (l : Locals R)
    (s : SensorSample) (h : readFailed s = true) :
    coastIteration filterSensors m l s =
      { locals := { state := l.state, elapsedTime := (l.elapsedTime + 200) % 4294967296 },
        vars := m, effects := [], returned := false } := by
  simp [coastIteration, h, MONITOR_FOR_PARACHUTES_PERIOD, UINT32_MODULUS]

theorem coastIteration_valid (filterSensors : Filter R) (n : Int) (kfs : KalmanStateVector R)
    (l : Locals R) (s : SensorSample) (h : readFailed s = false) :
    coastIteration filterSensors { numDescents := n, kalmanFilterState := kfs } l s =
      { locals :=
          { state := filterSensors l.state s.currentAccel s.currentPressure MONITOR_FOR_PARACHUTES_PERIOD,
            elapsedTime := (l.elapsedTime + 200) % 4294967296 },
        vars :=
          { numDescents :=
              if (filterSensors l.state s.currentAccel s.currentPressure
                  MONITOR_FOR_PARACHUTES_PERIOD).altitude < l.state.altitude then wrapInt32 (n + 1)
              else 0,
            kalmanFilterState := kfs },
        effects :=
          if 3 ≤ (if (filterSensors l.state s.currentAccel s.currentPressure
                  MONITOR_FOR_PARACHUTES_PERIOD).altitude < l.state.altitude then wrapInt32 (n + 1)
              else 0)
          then [ejectDrogueParachute, Effect.newFlightPhase DROGUE_DESCENT] else [],
        returned :=
          decide (3 ≤ (if (filterSensors l.state s.currentAccel s.currentPressure
                  MONITOR_FOR_PARACHUTES_PERIOD).altitude < l.state.altitude then wrapInt32 (n + 1)
              else 0)) } := by
  unfold coastIteration detectApogee
  simp only [h, if_false, Bool.false_eq_true, NUM_DESCENTS_TO_TRIGGER_DROUGE, MONITOR_FOR_PARACHUTES_PERIOD,
    UINT32_MODULUS]
  split_ifs <;> simp_all


theorem descentObservations_cons_failed (filterSensors : Filter R) (state : KalmanStateVector R)
    (s : SensorSample) (rest : List SensorSample) (h : readFailed s = true) :
    descentObservations filterSensors state (s :: rest) =
      none :: descentObservations filterSensors state rest := by
  simp [descentObservations, h]

theorem descentObservations_cons_valid (filterSensors : Filter R) (state : KalmanStateVector R)
    (s : SensorSample) (rest : List SensorSample) (h : readFailed s = false) :
    descentObservations filterSensors state (s :: rest) =
      some (decide ((filterSensors state s.currentAccel s.currentPressure
          MONITOR_FOR_PARACHUTES_PERIOD).altitude < state.altitude)) ::
        descentObservations filterSensors
          (filterSensors state s.currentAccel s.currentPressure MONITOR_FOR_PARACHUTES_PERIOD) rest := by
  simp [descentObservations, h]

theorem append_take_succ_cons {A : Type} (pre : List A) (o : A) (xs : List A) (k : Nat) :
    pre ++ (o :: xs).take (k + 1) = (pre ++ [o]) ++ xs.take k := by
  simp

theorem coast_loop_general (filterSensors : Filter R) (kfs : KalmanStateVector R) :
    ∀ (samples : List SensorSample) (pre : List (Option Bool)) (n : Int) (l : Locals R),
      n = (descentStreak pre : Int) → lastThreeValidDescended pre = false →
      (∀ k, k < samples.length →
          lastThreeValidDescended
            (pre ++ (descentObservations filterSensors l.state samples).take (k + 1)) = true →
          (∀ j, j < k → lastThreeValidDescended
            (pre ++ (descentObservations filterSensors l.state samples).take (j + 1)) = false) →
          (runLoop (coastIteration filterSensors) { numDescents := n, kalmanFilterState := kfs }
              l samples).trace =
            List.replicate k [] ++ [[ejectDrogueParachute, Effect.newFlightPhase DROGUE_DESCENT]] ∧
          (runLoop (coastIteration filterSensors) { numDescents := n, kalmanFilterState := kfs }
              l samples).returned = true) ∧
      ((∀ j, j < samples.length → lastThreeValidDescended
            (pre ++ (descentObservations filterSensors l.state samples).take (j + 1)) = false) →
          (runLoop (coastIteration filterSensors) { numDescents := n, kalmanFilterState := kfs }
              l samples).trace = List.replicate samples.length [] ∧
          (runLoop (coastIteration filterSensors) { numDescents := n, kalmanFilterState := kfs }
              l samples).returned = false) := by
  intro samples
  induction samples with
  | nil =>
    intro pre n l _ _
    refine ⟨fun k hk => absurd hk (Nat.not_lt_zero k), fun _ => ⟨rfl, rfl⟩⟩
  | cons s rest ih =>
    intro pre n l hn hpre
    by_cases hf : readFailed s = true
    · -- the tick is skipped: the observation is `none`
      have hpre1 : lastThreeValidDescended (pre ++ [none]) = false := by
        rw [lastThreeValidDescended_eq_streak, descentStreak_append_none,
          ← lastThreeValidDescended_eq_streak]
        exact hpre
      have hn1 : n = (descentStreak (pre ++ [none]) : Int) := by
        rw [descentStreak_append_none]; exact hn
      have ih1 := ih (pre ++ [none]) n
        { state := l.state, elapsedTime := (l.elapsedTime + 200) % 4294967296 } hn1 hpre1
      rw [runLoop_cons, coastIteration_failed filterSensors _ l s hf,
        descentObservations_cons_failed filterSensors l.state s rest hf]
      simp only [Bool.false_eq_true, if_false]
      constructor
      · intro k hk hL hfirst
        cases k with
        | zero =>
          rw [append_take_succ_cons] at hL
          simp only [List.take_zero, List.append_nil] at hL
          rw [hpre1] at hL
          exact absurd hL (by decide)
        | succ k =>
          rw [append_take_succ_cons] at hL
          have hk1 : k < rest.length := by
            simpa using hk
          have hfirst1 : ∀ j, j < k → lastThreeValidDescended
              ((pre ++ [none]) ++ (descentObservations filterSensors l.state rest).take (j + 1)) =
                false := by
            intro j hj
            have := hfirst (j + 1) (by omega)
            rwa [append_take_succ_cons] at this
          obtain ⟨h1, h2⟩ := ih1.1 k hk1 hL hfirst1
          refine ⟨?_, h2⟩
          simp only [h1, List.replicate_succ, List.cons_append]
      · intro hnone
        have hnone1 : ∀ j, j < rest.length → lastThreeValidDescended
            ((pre ++ [none]) ++ (descentObservations filterSensors l.state rest).take (j + 1)) =
              false := by
          intro j hj
          have := hnone (j + 1) (by simpa using hj)
          rwa [append_take_succ_cons] at this
        obtain ⟨h1, h2⟩ := ih1.2 hnone1
        refine ⟨?_, h2⟩
        simp only [h1, List.length_cons, List.replicate_succ]
    · -- a valid tick: the observation is `some b`
      have hv : readFailed s = false := by simpa using hf
      rw [runLoop_cons, coastIteration_valid filterSensors n kfs l s hv,
        descentObservations_cons_valid filterSensors l.state s rest hv]
      generalize hb : decide ((filterSensors l.state s.currentAccel s.currentPressure
          MONITOR_FOR_PARACHUTES_PERIOD).altitude < l.state.altitude) = b
      have hsmall : descentStreak pre < 3 := by
        have h3 := hpre
        rw [lastThreeValidDescended_eq_streak] at h3
        simpa using h3
      have hw : wrapInt32 (n + 1) = n + 1 :=
        wrapInt32_of_small _ (by omega) (by omega)
      have hcount : (if (filterSensors l.state s.currentAccel s.currentPressure
          MONITOR_FOR_PARACHUTES_PERIOD).altitude < l.state.altitude then wrapInt32 (n + 1)
            else 0) = (descentStreak (pre ++ [some b]) : Int) := by
        rw [descentStreak_append_some, ← hb, hw]
        by_cases hlt : (filterSensors l.state s.currentAccel s.currentPressure
          MONITOR_FOR_PARACHUTES_PERIOD).altitude < l.state.altitude
        · simp [hlt, hn]
        · simp [hlt]
      rw [hcount]
      have hL0 : lastThreeValidDescended (pre ++ [some b]) =
          decide ((3 : Int) ≤ (descentStreak (pre ++ [some b]) : Int)) := by
        rw [lastThreeValidDescended_eq_streak]
        congr 1
        exact propext (by omega)
      generalize hfire : decide ((3 : Int) ≤ (descentStreak (pre ++ [some b]) : Int)) = fire at hL0
      have ih1 := ih (pre ++ [some b]) (descentStreak (pre ++ [some b]) : Int)
        { state := filterSensors l.state s.currentAccel s.currentPressure MONITOR_FOR_PARACHUTES_PERIOD,
          elapsedTime := (l.elapsedTime + 200) % 4294967296 } rfl
      cases fire with
      | true =>
        have h3 : (3 : Int) ≤ (descentStreak (pre ++ [some b]) : Int) := of_decide_eq_true hfire
        simp only [if_true, h3]
        constructor
        · intro k hk hL hfirst
          cases k with
          | zero => simp
          | succ k =>
            have := hfirst 0 (by omega)
            rw [append_take_succ_cons] at this
            simp only [List.take_zero, List.append_nil] at this
            rw [hL0] at this
            exact absurd this (by decide)
        · intro hnone
          have := hnone 0 (by simp)
          rw [append_take_succ_cons] at this
          simp only [List.take_zero, List.append_nil] at this
          rw [hL0] at this
          exact absurd this (by decide)
      | false =>
        have h3 : ¬ (3 : Int) ≤ (descentStreak (pre ++ [some b]) : Int) := of_decide_eq_false hfire
        simp only [if_false, h3, Bool.false_eq_true]
        have ih2 := ih1 hL0
        constructor
        · intro k hk hL hfirst
          cases k with
          | zero =>
            rw [append_take_succ_cons] at hL
            simp only [List.take_zero, List.append_nil] at hL
            rw [hL0] at hL
            exact absurd hL (by decide)
          | succ k =>
            rw [append_take_succ_cons] at hL
            have hk1 : k < rest.length := by
              simpa using hk
            have hfirst1 : ∀ j, j < k → lastThreeValidDescended
                ((pre ++ [some b]) ++ (descentObservations filterSensors
                  (filterSensors l.state s.currentAccel s.currentPressure
                    MONITOR_FOR_PARACHUTES_PERIOD) rest).take (j + 1)) = false := by
              intro j hj
              have := hfirst (j + 1) (by omega)
              rwa [append_take_succ_cons] at this
            obtain ⟨h1, h2⟩ := ih2.1 k hk1 hL hfirst1
            refine ⟨?_, h2⟩
            simp only [h1, List.replicate_succ, List.cons_append]
        · intro hnone
          have hnone1 : ∀ j, j < rest.length → lastThreeValidDescended
              ((pre ++ [some b]) ++ (descentObservations filterSensors
                (filterSensors l.state s.currentAccel s.currentPressure
                  MONITOR_FOR_PARACHUTES_PERIOD) rest).take (j + 1)) = false := by
            intro j hj
            have := hnone (j + 1) (by simpa using hj)
            rwa [append_take_succ_cons] at this
          obtain ⟨h1, h2⟩ := ih2.2 hnone1
          refine ⟨?_, h2⟩
          simp only [h1, List.length_cons, List.replicate_succ]


/-- C1: entered with `numDescents` at 0, the coast routine drives the drogue e-match
high (it writes `GPIO_PIN_SET` to the drogue line) and then requests
DROGUE_DESCENT, once, and returns, on the first tick that closes three valid
descending ticks in a row; every earlier tick performs no effect, and if no tick
of the sequence is such a tick the routine performs no effect at all and has not
returned. -/
theorem coast_deploys_drogue_at_first_apogee_tick (filterSensors : Filter R)
    (kfs state : KalmanStateVector R) (samples : List SensorSample) :
    (∀ k, k < samples.length → apogeeTick filterSensors state samples k = true →
        (∀ j, j < k → apogeeTick filterSensors state samples j = false) →
        (parachutesControlCoastRoutine filterSensors { numDescents := 0, kalmanFilterState := kfs }
            state samples).trace =
          List.replicate k [] ++ [[Effect.gpioWritePin Pin.DROGUE_PARACHUTE true, Effect.newFlightPhase DROGUE_DESCENT]] ∧
        (parachutesControlCoastRoutine filterSensors { numDescents := 0, kalmanFilterState := kfs }
            state samples).returned = true) ∧
    ((∀ j, j < samples.length → apogeeTick filterSensors state samples j = false) →
        (parachutesControlCoastRoutine filterSensors { numDescents := 0, kalmanFilterState := kfs }
            state samples).trace = List.replicate samples.length [] ∧
        (parachutesControlCoastRoutine filterSensors { numDescents := 0, kalmanFilterState := kfs }
            state samples).returned = false) := by
  have h := coast_loop_general filterSensors kfs samples [] 0 { state := state, elapsedTime := 0 }
    (by simp [descentStreak]) (by decide)
  simpa [apogeeTick, parachutesControlCoastRoutine, ejectDrogueParachute] using h

/-- Witness of C1: a climb, a failed read, and three descending ticks with a failed
read among them; the drogue fires on the sixth tick. -/
theorem coast_deploys_drogue_at_first_apogee_tick_witness :
    (parachutesControlCoastRoutine
        (fun state accel _ _ => { state with altitude := state.altitude + accel })
        { numDescents := 0, kalmanFilterState := { altitude := 1401, velocity := 0, acceleration := 0 } }
        { altitude := 9000, velocity := 0, acceleration := 0 }
        [⟨5, 900⟩, ⟨-1, 900⟩, ⟨-2, 900⟩, ⟨-3, 900⟩, ⟨-4, -1⟩, ⟨-4, 900⟩, ⟨-4, 900⟩]).trace =
      List.replicate 5 [] ++ [[Effect.gpioWritePin Pin.DROGUE_PARACHUTE true, Effect.newFlightPhase DROGUE_DESCENT]] ∧
    (parachutesControlCoastRoutine
        (fun state accel _ _ => { state with altitude := state.altitude + accel })
        { numDescents := 0, kalmanFilterState := { altitude := 1401, velocity := 0, acceleration := 0 } }
        { altitude := 9000, velocity := 0, acceleration := 0 }
        [⟨5, 900⟩, ⟨-1, 900⟩, ⟨-2, 900⟩, ⟨-3, 900⟩, ⟨-4, -1⟩, ⟨-4, 900⟩, ⟨-4, 900⟩]).returned = true :=
  (coast_deploys_drogue_at_first_apogee_tick
      (fun state accel _ _ => { state with altitude := state.altitude + accel })
      { altitude := (1401 : Int), velocity := 0, acceleration := 0 }
      { altitude := 9000, velocity := 0, acceleration := 0 }
      [⟨5, 900⟩, ⟨-1, 900⟩, ⟨-2, 900⟩, ⟨-3, 900⟩, ⟨-4, -1⟩, ⟨-4, 900⟩, ⟨-4, 900⟩]).1
    5 (by decide) (by decide) (by decide)

end CoastRun

section DrogueDescentRun

variable {R : Type} [LT R] [∀ a b : R, Decidable (a < b)] [IntCast R]

theorem runLoop_append_single {R : Type}
    (body : ModuleVars R → Locals R → SensorSample → Iteration R) (s : SensorSample) :
    ∀ (xs : List SensorSample) (m : ModuleVars R) (l : Locals R),
      (runLoop body m l xs).returned = false →
      runLoop body m l (xs ++ [s]) =
        { locals := (body (runLoop body m l xs).vars (runLoop body m l xs).locals s).locals,
          vars := (body (runLoop body m l xs).vars (runLoop body m l xs).locals s).vars,
          trace := (runLoop body m l xs).trace ++
            [(body (runLoop body m l xs).vars (runLoop body m l xs).locals s).effects],
          returned := (body (runLoop body m l xs).vars (runLoop body m l xs).locals s).returned } := by
  intro xs
  induction xs with
  | nil =>
    intro m l _
    rw [List.nil_append, runLoop_cons]
    cases h : (body m l s).returned <;> simp [runLoop, h]
  | cons x rest ih =>
    intro m l hret
    rw [runLoop_cons] at hret
    rw [List.cons_append, runLoop_cons, runLoop_cons]
    cases h : (body m l x).returned
    · simp only [h, Bool.false_eq_true, if_false] at hret ⊢
      rw [ih _ _ hret]
      simp
    · simp [h] at hret

theorem drogueDescentIteration_failed (filterSensors : Filter R) (m : ModuleVars R) (l : Locals R)
    (s : SensorSample) (h : readFailed s = true) :
    drogueDescentIteration filterSensors m l s =
      { locals := { state := l.state, elapsedTime := (l.elapsedTime + 200) % 4294967296 },
        vars := m, effects := [], returned := false } := by
  simp [drogueDescentIteration, h, MONITOR_FOR_PARACHUTES_PERIOD, UINT32_MODULUS]

theorem drogueDescentIteration_facts (filterSensors : Filter R) (m : ModuleVars R) (l : Locals R)
    (s : SensorSample) :
    (drogueDescentIteration filterSensors m l s).locals.elapsedTime =
        (l.elapsedTime + 200) % 4294967296 ∧
    (drogueDescentIteration filterSensors m l s).vars = m ∧
    ((drogueDescentIteration filterSensors m l s).returned = false →
      (drogueDescentIteration filterSensors m l s).effects = []) := by
  unfold drogueDescentIteration
  simp only [MONITOR_FOR_PARACHUTES_PERIOD, UINT32_MODULUS]
  split_ifs <;> simp

theorem drogueDescentIteration_timeout (filterSensors : Filter R) (m : ModuleVars R) (l : Locals R)
    (s : SensorSample) (hv : readFailed s = false)
    (ht : 600000 < (l.elapsedTime + 200) % 4294967296) :
    (drogueDescentIteration filterSensors m l s).effects =
        [ejectMainParachute, Effect.newFlightPhase MAIN_DESCENT] ∧
    (drogueDescentIteration filterSensors m l s).returned = true := by
  have ht1 : (KALMAN_FILTER_MAIN_TIMEOUT : Int) <
      (((l.elapsedTime + MONITOR_FOR_PARACHUTES_PERIOD.toNat) % UINT32_MODULUS : Nat) : Int) := by
    simp only [KALMAN_FILTER_MAIN_TIMEOUT, MONITOR_FOR_PARACHUTES_PERIOD, UINT32_MODULUS]
    have : (200 : Int).toNat = 200 := rfl
    rw [this]
    omega
  unfold drogueDescentIteration
  simp only [hv, Bool.false_eq_true, if_false]
  rw [if_pos (Or.inr ht1)]
  exact ⟨rfl, rfl⟩

/-- While the drogue-descent loop has not returned it has performed no effect,
and its elapsed time is 200 ms per tick, modulo `2^32`. -/
theorem drogue_loop_not_returned (filterSensors : Filter R) :
    ∀ (xs : List SensorSample) (m : ModuleVars R) (l : Locals R),
      l.elapsedTime < 4294967296 →
      (runLoop (drogueDescentIteration filterSensors) m l xs).returned = false →
      (runLoop (drogueDescentIteration filterSensors) m l xs).trace = List.replicate xs.length [] ∧
      (runLoop (drogueDescentIteration filterSensors) m l xs).vars = m ∧
      (runLoop (drogueDescentIteration filterSensors) m l xs).locals.elapsedTime =
        (l.elapsedTime + 200 * xs.length) % 4294967296 := by
  intro xs
  induction xs with
  | nil =>
    intro m l hl _
    refine ⟨rfl, rfl, ?_⟩
    simp only [runLoop, List.length_nil]
    omega
  | cons x rest ih =>
    intro m l hl hret
    obtain ⟨he, hm, heff⟩ := drogueDescentIteration_facts filterSensors m l x
    rw [runLoop_cons] at hret ⊢
    cases h : (drogueDescentIteration filterSensors m l x).returned
    · simp only [h, Bool.false_eq_true, if_false] at hret ⊢
      have hl1 : (drogueDescentIteration filterSensors m l x).locals.elapsedTime < 4294967296 := by
        rw [he]; omega
      obtain ⟨h1, h2, h3⟩ := ih _ _ hl1 hret
      refine ⟨?_, ?_, ?_⟩
      · rw [h1, heff h]; rfl
      · rw [h2, hm]
      · rw [h3, he, List.length_cons]; omega
    · simp [h] at hret

/-- A loop whose body skips failed reads performs nothing on a sequence of
failed reads. -/
theorem drogue_loop_all_failed (filterSensors : Filter R) :
    ∀ (xs : List SensorSample) (m : ModuleVars R) (l : Locals R),
      (∀ s, s ∈ xs → readFailed s = true) →
      (runLoop (drogueDescentIteration filterSensors) m l xs).returned = false := by
  intro xs
  induction xs with
  | nil => intro m l _; rfl
  | cons x rest ih =>
    intro m l hall
    rw [runLoop_cons, drogueDescentIteration_failed filterSensors m l x (hall x (by simp))]
    simp only [Bool.false_eq_true, if_false]
    exact ih _ _ (fun s hs => hall s (by simp [hs]))

/-- C3 (as amended): if the drogue-descent routine has not returned during its first
`k` ticks, with `k` at least 3000 (so that the elapsed time at the next tick is
above 600000 ms) and below the wrap of the 32-bit millisecond counter, and the
reads of the next tick are both valid, then on that tick the main e-match is
driven high (`GPIO_PIN_SET` is written to the main line) and MAIN_DESCENT is
requested, and the routine returns; no earlier tick performed an effect. -/
theorem drogue_timeout_deploys_main_on_valid_tick (filterSensors : Filter R) (m : ModuleVars R)
    (state : KalmanStateVector R) (samples : List SensorSample) (k : Nat) (s : SensorSample)
    (hk : 3000 ≤ k) (hwrap : k < 21474836) (hs : samples[k]? = some s)
    (hAccel : s.currentAccel ≠ -1) (hPressure : s.currentPressure ≠ -1)
    (hrun : (parachutesControlDrogueDescentRoutine filterSensors m state
      (samples.take k)).returned = false) :
    (parachutesControlDrogueDescentRoutine filterSensors m state (samples.take (k + 1))).trace =
      List.replicate k [] ++ [[Effect.gpioWritePin Pin.MAIN_PARACHUTE true, Effect.newFlightPhase MAIN_DESCENT]] ∧
    (parachutesControlDrogueDescentRoutine filterSensors m state (samples.take (k + 1))).returned =
      true := by
  have hv : readFailed s = false := by simp [readFailed, hAccel, hPressure]
  have hlen : k < samples.length := by
    rcases Nat.lt_or_ge k samples.length with h | h
    · exact h
    · rw [List.getElem?_eq_none h] at hs; exact absurd hs (by simp)
  have hlen1 : (samples.take k).length = k := by
    rw [List.length_take]; omega
  unfold parachutesControlDrogueDescentRoutine at hrun ⊢
  obtain ⟨h1, _, h3⟩ := drogue_loop_not_returned filterSensors (samples.take k) m
    { state := state, elapsedTime := 0 } (Nat.zero_lt_succ _) hrun
  simp only [hlen1, Nat.zero_add] at h1 h3
  have ht : 600000 < ((runLoop (drogueDescentIteration filterSensors) m
      { state := state, elapsedTime := 0 } (samples.take k)).locals.elapsedTime + 200) %
        4294967296 := by
    rw [h3, Nat.mod_eq_of_lt (show 200 * k < 4294967296 by omega),
      Nat.mod_eq_of_lt (show 200 * k + 200 < 4294967296 by omega)]
    omega
  obtain ⟨h4, h5⟩ := drogueDescentIteration_timeout filterSensors
    (runLoop (drogueDescentIteration filterSensors) m { state := state, elapsedTime := 0 }
      (samples.take k)).vars
    (runLoop (drogueDescentIteration filterSensors) m { state := state, elapsedTime := 0 }
      (samples.take k)).locals s hv ht
  rw [List.take_succ, hs, Option.toList_some, runLoop_append_single _ _ _ _ _ hrun]
  exact ⟨by rw [h1, h4]; rfl, h5⟩


/-- Witness of C3 (as amended): 3000 ticks of failed reads, then a valid tick. -/
theorem drogue_timeout_deploys_main_on_valid_tick_witness :
    (parachutesControlDrogueDescentRoutine descendingFilter
        { numDescents := 3, kalmanFilterState := { altitude := 9000, velocity := 0, acceleration := 0 } }
        { altitude := 9000, velocity := 0, acceleration := 0 }
        ((List.replicate 3000 failedSample ++ [validSample]).take (3000 + 1))).trace =
      List.replicate 3000 [] ++ [[Effect.gpioWritePin Pin.MAIN_PARACHUTE true, Effect.newFlightPhase MAIN_DESCENT]] ∧
    (parachutesControlDrogueDescentRoutine descendingFilter
        { numDescents := 3, kalmanFilterState := { altitude := 9000, velocity := 0, acceleration := 0 } }
        { altitude := 9000, velocity := 0, acceleration := 0 }
        ((List.replicate 3000 failedSample ++ [validSample]).take (3000 + 1))).returned = true :=
  drogue_timeout_deploys_main_on_valid_tick descendingFilter
    { numDescents := 3, kalmanFilterState := { altitude := 9000, velocity := 0, acceleration := 0 } }
    { altitude := 9000, velocity := 0, acceleration := 0 }
    (List.replicate 3000 failedSample ++ [validSample]) 3000 validSample
    (Nat.le_refl 3000) (by decide)
    (by
      rw [List.getElem?_append_right (Nat.le_of_eq (List.length_replicate _ _)),
        List.length_replicate, Nat.sub_self]
      rfl)
    (by decide) (by decide)
    (by
      have ht : (List.replicate 3000 failedSample ++ [validSample]).take 3000 =
          List.replicate 3000 failedSample :=
        List.take_left' (List.length_replicate _ _)
      rw [ht]
      exact drogue_loop_all_failed descendingFilter _ _ _
        (fun s hs => by rw [List.eq_of_mem_replicate hs]; rfl))

/-- C3 (counterexample): on 3001 ticks of failed reads the drogue-descent routine
performs no effect on any of them, the 3001st included, where its elapsed time
is 600200 ms: no tick writes `GPIO_PIN_SET` to the main line or requests
MAIN_DESCENT, and the routine has not returned. -/
theorem drogue_timeout_skipped_on_failed_reads :
    (parachutesControlDrogueDescentRoutine descendingFilter
        { numDescents := 3, kalmanFilterState := { altitude := 1401, velocity := 0, acceleration := 0 } }
        { altitude := 9000, velocity := 0, acceleration := 0 }
        (List.replicate 3001 failedSample)).trace = List.replicate 3001 [] ∧
    (parachutesControlDrogueDescentRoutine descendingFilter
        { numDescents := 3, kalmanFilterState := { altitude := 1401, velocity := 0, acceleration := 0 } }
        { altitude := 9000, velocity := 0, acceleration := 0 }
        (List.replicate 3001 failedSample)).locals.elapsedTime = 600200 ∧
    (parachutesControlDrogueDescentRoutine descendingFilter
        { numDescents := 3, kalmanFilterState := { altitude := 1401, velocity := 0, acceleration := 0 } }
        { altitude := 9000, velocity := 0, acceleration := 0 }
        (List.replicate 3001 failedSample)).returned = false ∧
    (∀ eff, eff ∈ (parachutesControlDrogueDescentRoutine descendingFilter
        { numDescents := 3, kalmanFilterState := { altitude := 1401, velocity := 0, acceleration := 0 } }
        { altitude := 9000, velocity := 0, acceleration := 0 }
        (List.replicate 3001 failedSample)).trace →
      Effect.gpioWritePin Pin.MAIN_PARACHUTE true ∉ eff ∧
      Effect.newFlightPhase MAIN_DESCENT ∉ eff) := by
  have hret := drogue_loop_all_failed descendingFilter (List.replicate 3001 failedSample)
    { numDescents := 3, kalmanFilterState := { altitude := 1401, velocity := 0, acceleration := 0 } }
    { state := { altitude := 9000, velocity := 0, acceleration := 0 }, elapsedTime := 0 }
    (fun s hs => by rw [List.eq_of_mem_replicate hs]; rfl)
  obtain ⟨h1, _, h3⟩ := drogue_loop_not_returned descendingFilter _ _ _ (Nat.zero_lt_succ _) hret
  rw [List.length_replicate] at h1 h3
  refine ⟨h1, h3, hret, ?_⟩
  intro eff heff
  have heff1 : eff ∈ List.replicate 3001 ([] : List Effect) := h1 ▸ heff
  rw [List.eq_of_mem_replicate heff1]
  exact ⟨List.not_mem_nil _, List.not_mem_nil _⟩

/-- C2 (the code at the failing input): entered at 3000 m with the file-scope
`kalmanFilterState` as `parachutesControlTask` initialises it (1401 m), the first valid
tick of the drogue-descent routine updates the estimate to 2999 m, which is not
below 1858 m, at an elapsed time of 200 ms, and deploys main all the same. -/
theorem drogue_descent_tests_stale_altitude :
    parachutesControlDrogueDescentRoutine descendingFilter
        { numDescents := 3, kalmanFilterState := { altitude := 1401, velocity := 0, acceleration := 0 } }
        { altitude := 3000, velocity := 0, acceleration := 0 } [validSample] =
      { locals := { state := { altitude := 2999, velocity := 0, acceleration := 0 }, elapsedTime := 200 },
        vars := { numDescents := 3,
                  kalmanFilterState := { altitude := 1401, velocity := 0, acceleration := 0 } },
        trace := [[ejectMainParachute, Effect.newFlightPhase MAIN_DESCENT]],
        returned := true } := by
  decide

end DrogueDescentRun

/-! ## Properties of the task loop -/

theorem burnIteration_effects {R : Type} (filterSensors : Filter R) (phase : FlightPhase) (m : ModuleVars R)
    (l : Locals R) (s : SensorSample) :
    (burnIteration filterSensors phase m l s).effects = [] := by
  unfold burnIteration
  split_ifs <;> rfl

theorem coastIteration_effects {R : Type} [LT R] [∀ a b : R, Decidable (a < b)]
    (filterSensors : Filter R) (m : ModuleVars R)
    (l : Locals R) (s : SensorSample) :
    ((coastIteration filterSensors m l s).effects = [] ∧
      (coastIteration filterSensors m l s).returned = false) ∨
    ((coastIteration filterSensors m l s).effects =
        [ejectDrogueParachute, Effect.newFlightPhase DROGUE_DESCENT] ∧
      (coastIteration filterSensors m l s).returned = true) := by
  cases hf : readFailed s
  · cases m with
    | mk n kfs =>
      rw [coastIteration_valid filterSensors n kfs l s hf]
      split_ifs <;> simp_all
  · rw [coastIteration_failed filterSensors m l s hf]
    simp

section TaskLoop

variable {R : Type} [LT R] [∀ a b : R, Decidable (a < b)] [IntCast R]

theorem drogueBeforeMain_append_of_not_mem (log eff : List Effect)
    (h : DrogueBeforeMain log) (hm : ejectMainParachute ∉ eff) :
    DrogueBeforeMain (log ++ eff) := by
  intro i hi
  rcases Nat.lt_or_ge i log.length with hlt | hge
  · rw [List.getElem?_append_left hlt] at hi
    obtain ⟨j, hj, hjd⟩ := h i hi
    exact ⟨j, hj, by rw [List.getElem?_append_left (Nat.lt_trans hj hlt)]; exact hjd⟩
  · rw [List.getElem?_append_right hge] at hi
    exact absurd (List.getElem?_mem hi) hm

theorem drogueBeforeMain_append_of_mem (log eff : List Effect)
    (h : DrogueBeforeMain log) (hd : ejectDrogueParachute ∈ log) :
    DrogueBeforeMain (log ++ eff) := by
  intro i hi
  rcases Nat.lt_or_ge i log.length with hlt | hge
  · rw [List.getElem?_append_left hlt] at hi
    obtain ⟨j, hj, hjd⟩ := h i hi
    exact ⟨j, hj, by rw [List.getElem?_append_left (Nat.lt_trans hj hlt)]; exact hjd⟩
  · obtain ⟨j, hj, hjd⟩ := List.getElem_of_mem hd
    refine ⟨j, Nat.lt_of_lt_of_le hj hge, ?_⟩
    rw [List.getElem?_append_left hj, List.getElem?_eq_getElem hj, hjd]

theorem drogueDescentIteration_effects (filterSensors : Filter R) (m : ModuleVars R)
    (l : Locals R) (s : SensorSample) :
    ((drogueDescentIteration filterSensors m l s).effects = [] ∧
      (drogueDescentIteration filterSensors m l s).returned = false) ∨
    ((drogueDescentIteration filterSensors m l s).effects =
        [ejectMainParachute, Effect.newFlightPhase MAIN_DESCENT] ∧
      (drogueDescentIteration filterSensors m l s).returned = true) := by
  unfold drogueDescentIteration
  simp only [MONITOR_FOR_PARACHUTES_PERIOD, UINT32_MODULUS]
  split_ifs <;> simp

/-- A step of the parachute task preserves `DrogueLatched`. -/
theorem drogueLatched_taskStep (filterSensors : Filter R) (i : TaskInput R) (t : TaskState R)
    (h : DrogueLatched t) : DrogueLatched (taskStep filterSensors i t) := by
  obtain ⟨ha, hb, hc⟩ := h
  unfold taskStep
  cases hloc : t.loc with
  | dispatch =>
    simp only
    unfold dispatch
    cases hp : t.flightPhase <;> simp only <;>
      exact ⟨fun _ => ha (by simp_all), fun l hl => by simp_all, hc⟩
  | prelaunch =>
    simp only
    unfold prelaunchIteration
    split_ifs
    · exact ⟨ha, fun l hl => by simp at hl, hc⟩
    · exact ⟨ha, hb, hc⟩
  | burn l =>
    simp only
    unfold commit
    rw [burnIteration_effects]
    refine ⟨by simpa [phaseAfter] using ha, ?_, by simpa using hc⟩
    intro l1 hl1
    split_ifs at hl1
  | coast l =>
    simp only
    unfold commit
    rcases coastIteration_effects filterSensors t.vars l i.sample with ⟨he, hr⟩ | ⟨he, hr⟩
    · rw [he, hr]
      refine ⟨by simpa [phaseAfter] using ha, ?_, by simpa using hc⟩
      intro l1 hl1
      simp at hl1
    · rw [he, hr]
      refine ⟨fun _ => by simp, ?_, ?_⟩
      · intro l1 hl1
        simp at hl1
      · exact drogueBeforeMain_append_of_not_mem _ _ hc (by decide)
  | drogueDescent l =>
    simp only
    have hd : ejectDrogueParachute ∈ t.log := hb l hloc
    unfold commit
    rcases drogueDescentIteration_effects filterSensors t.vars l i.sample with ⟨he, hr⟩ | ⟨he, hr⟩
    · rw [he, hr]
      refine ⟨by simpa [phaseAfter] using ha, ?_, by simpa using hc⟩
      intro l1 _
      simpa using hd
    · rw [he, hr]
      refine ⟨fun _ => by simp [hd], ?_, ?_⟩
      · intro l1 hl1
        simp at hl1
      · exact drogueBeforeMain_append_of_mem _ _ hc hd
  | mainDescent =>
    simp only
    unfold parachutesControlMainDescentRoutine
    split_ifs
    · exact ⟨ha, fun l hl => by simp at hl, hc⟩
    · exact ⟨ha, hb, hc⟩

/-- `DrogueLatched` holds along every execution in which no one but the coast routine
writes DROGUE_DESCENT into the phase cell. -/
theorem drogueLatched_foldl (filterSensors : Filter R) :
    ∀ (steps : List (Step R)) (t : TaskState R), DrogueLatched t →
      (∀ q, Step.phaseWrite q ∈ steps → q ≠ DROGUE_DESCENT) →
      DrogueLatched (steps.foldl (step filterSensors) t) := by
  intro steps
  induction steps with
  | nil => intro t h _; exact h
  | cons x rest ih =>
    intro t h hw
    rw [List.foldl_cons]
    apply ih
    · cases x with
      | phaseWrite q =>
        have hq : q ≠ DROGUE_DESCENT := hw q (by simp)
        obtain ⟨_, hb, hc⟩ := h
        exact ⟨fun e => absurd e hq, hb, hc⟩
      | task i => exact drogueLatched_taskStep filterSensors i t h
    · intro q hq
      exact hw q (by simp [hq])

/-- C7: along every execution of the parachute task in which the phase cell does not
start at DROGUE_DESCENT and no other task writes DROGUE_DESCENT into it, every
position of the log at which the main e-match line is driven high comes after a
position at which the drogue e-match line was driven high. -/
theorem main_high_only_after_drogue_high (filterSensors : Filter R) (p : FlightPhase)
    (steps : List (Step R)) (hp : p ≠ DROGUE_DESCENT)
    (hw : ∀ q, Step.phaseWrite q ∈ steps → q ≠ DROGUE_DESCENT) :
    ∀ i : Nat, (parachutesControlTask filterSensors p steps).log[i]? = some ejectMainParachute →
      ∃ j : Nat, j < i ∧
        (parachutesControlTask filterSensors p steps).log[j]? = some ejectDrogueParachute := by
  have h0 : DrogueLatched (taskStart p : TaskState R) := by
    refine ⟨fun e => absurd e hp, ?_, ?_⟩
    · intro l hl
      simp [taskStart] at hl
    · intro i hi
      simp [taskStart] at hi
  exact (drogueLatched_foldl filterSensors steps _ h0 hw).2.2

/-- Witness of C7: a flight from COAST through both deployments, with a write of
MAIN_DESCENT by another task on the way; main is driven high at position 2 of
the log, after the drogue. -/
theorem main_high_only_after_drogue_high_witness :
    (parachutesControlTask descendingFilter COAST
      [Step.task validInput, Step.task validInput, Step.task validInput, Step.task validInput,
       Step.task validInput, Step.phaseWrite MAIN_DESCENT, Step.task validInput]).log[2]? =
        some ejectMainParachute ∧
    ∃ j : Nat, j < 2 ∧
      (parachutesControlTask descendingFilter COAST
        [Step.task validInput, Step.task validInput, Step.task validInput, Step.task validInput,
         Step.task validInput, Step.phaseWrite MAIN_DESCENT, Step.task validInput]).log[j]? =
          some ejectDrogueParachute :=
  ⟨by decide,
   main_high_only_after_drogue_high descendingFilter COAST
    [Step.task validInput, Step.task validInput, Step.task validInput, Step.task validInput,
     Step.task validInput, Step.phaseWrite MAIN_DESCENT, Step.task validInput]
    (by decide)
    (by
      intro q hq
      simp at hq
      subst hq
      decide)
    2 (by decide)⟩

/-- C6 (the code at the failing input): the task enters the coast routine, another
task then writes ABORT_COMMAND_RECEIVED into the phase cell, and three valid
descending ticks follow.  The coast routine, which never reads the phase, drives
the drogue e-match high and overwrites the abort phase with DROGUE_DESCENT. -/
theorem coast_routine_overwrites_abort_phase :
    parachutesControlTask descendingFilter COAST
        [Step.task validInput, Step.phaseWrite ABORT_COMMAND_RECEIVED] =
      { flightPhase := ABORT_COMMAND_RECEIVED
        loc := Loc.coast { state := { altitude := 9000, velocity := 0, acceleration := 0 },
                           elapsedTime := 0 }
        vars := { numDescents := 0,
                  kalmanFilterState := { altitude := 1401, velocity := 0, acceleration := 0 } }
        log := [] } ∧
    parachutesControlTask descendingFilter COAST
        [Step.task validInput, Step.phaseWrite ABORT_COMMAND_RECEIVED,
         Step.task validInput, Step.task validInput, Step.task validInput] =
      { flightPhase := DROGUE_DESCENT
        loc := Loc.dispatch
        vars := { numDescents := 3,
                  kalmanFilterState := { altitude := 1401, velocity := 0, acceleration := 0 } }
        log := [ejectDrogueParachute, Effect.newFlightPhase DROGUE_DESCENT] } := by
  decide

end TaskLoop

/-! ## Further properties of the ground-link command handler -/

theorem IS_ABORT_PHASE_iff (p : FlightPhase) :
    IS_ABORT_PHASE p = true ↔
      (p = ABORT_COMMAND_RECEIVED ∨ p = ABORT_OXIDIZER_PRESSURE ∨
        p = ABORT_UNSPECIFIED_REASON ∨ p = ABORT_COMMUNICATION_ERROR) := by
  cases p <;> simp [IS_ABORT_PHASE]

/-- C11: whatever the heartbeat timer held and whatever the phase, after the HEARTBEAT
byte 0x46 the timer equals `HEARTBEAT_TIMEOUT`, which is 180000 ms; the phase, the
launch counter and both latches keep their values and no valve is called. -/
theorem heartbeat_byte_reloads_timer (c : ControlState) :
    HAL_UART_RxCpltCallback_USART2 0x46 c =
      ({ flightPhase := c.flightPhase, launchCmdReceived := c.launchCmdReceived,
         abortCmdReceived := c.abortCmdReceived,
         resetAvionicsCmdReceived := c.resetAvionicsCmdReceived,
         heartbeatTimer := 180000 }, []) ∧
    HEARTBEAT_TIMEOUT = 180000 := by
  constructor
  · simp [HAL_UART_RxCpltCallback_USART2, LAUNCH_CMD_BYTE, ARM_CMD_BYTE, ABORT_CMD_BYTE,
      RESET_AVIONICS_CMD_BYTE, HEARTBEAT_BYTE, HEARTBEAT_TIMEOUT]
  · decide

theorem heartbeatTimer_of_other_byte (rx : Nat) (c : ControlState) (h : rx ≠ 0x46) :
    (HAL_UART_RxCpltCallback_USART2 rx c).1.heartbeatTimer = c.heartbeatTimer := by
  unfold HAL_UART_RxCpltCallback_USART2
  simp only [HEARTBEAT_BYTE, getCurrentFlightPhase, newFlightPhase]
  split_ifs <;> rfl

/-- C12 (as amended): with the heartbeat timer at most `HEARTBEAT_TIMEOUT`, a HEARTBEAT byte
leaves the timer at `HEARTBEAT_TIMEOUT`: never less than before, and strictly greater
exactly when the timer was below `HEARTBEAT_TIMEOUT`; any other byte leaves the timer
as it was. -/
theorem heartbeat_timer_never_decreases (rx : Nat) (c : ControlState)
    (hmax : c.heartbeatTimer ≤ HEARTBEAT_TIMEOUT) :
    (rx = 0x46 → c.heartbeatTimer < HEARTBEAT_TIMEOUT →
      c.heartbeatTimer < (HAL_UART_RxCpltCallback_USART2 rx c).1.heartbeatTimer) ∧
    (rx = 0x46 →
      (HAL_UART_RxCpltCallback_USART2 rx c).1.heartbeatTimer = HEARTBEAT_TIMEOUT ∧
      c.heartbeatTimer ≤ (HAL_UART_RxCpltCallback_USART2 rx c).1.heartbeatTimer) ∧
    (rx ≠ 0x46 →
      (HAL_UART_RxCpltCallback_USART2 rx c).1.heartbeatTimer = c.heartbeatTimer) := by
  have hb : ∀ c : ControlState,
      (HAL_UART_RxCpltCallback_USART2 0x46 c).1.heartbeatTimer = HEARTBEAT_TIMEOUT := by
    intro c
    rw [(heartbeat_byte_reloads_timer c).1]
    rfl
  refine ⟨?_, ?_, heartbeatTimer_of_other_byte rx c⟩
  · intro hrx hlt
    subst hrx
    rw [hb]
    exact hlt
  · intro hrx
    subst hrx
    rw [hb]
    exact ⟨rfl, hmax⟩

/-- Witness of C12 (as amended): a HEARTBEAT byte with 500 ms left, and a LAUNCH byte. -/
theorem heartbeat_timer_never_decreases_witness :
    (500 : Int) <
      (HAL_UART_RxCpltCallback_USART2 0x46
        { flightPhase := BURN, launchCmdReceived := 1, abortCmdReceived := 0,
          resetAvionicsCmdReceived := 0, heartbeatTimer := 500 }).1.heartbeatTimer ∧
    (HAL_UART_RxCpltCallback_USART2 0x20
        { flightPhase := BURN, launchCmdReceived := 1, abortCmdReceived := 0,
          resetAvionicsCmdReceived := 0, heartbeatTimer := 500 }).1.heartbeatTimer = 500 :=
  ⟨(heartbeat_timer_never_decreases 0x46
      { flightPhase := BURN, launchCmdReceived := 1, abortCmdReceived := 0,
        resetAvionicsCmdReceived := 0, heartbeatTimer := 500 } (by decide)).1 rfl (by decide),
   (heartbeat_timer_never_decreases 0x20
      { flightPhase := BURN, launchCmdReceived := 1, abortCmdReceived := 0,
        resetAvionicsCmdReceived := 0, heartbeatTimer := 500 } (by decide)).2.2 (by decide)⟩

/-- C12 (counterexample): with the timer already at `HEARTBEAT_TIMEOUT`, a value inside
the closed range, a HEARTBEAT byte does not make it strictly greater. -/
theorem heartbeat_byte_at_full_timer_not_greater :
    (0 : Int) ≤ 180000 ∧ (180000 : Int) ≤ HEARTBEAT_TIMEOUT ∧
    ¬ ((180000 : Int) <
      (HAL_UART_RxCpltCallback_USART2 0x46
        { flightPhase := ARM, launchCmdReceived := 0, abortCmdReceived := 0,
          resetAvionicsCmdReceived := 0, heartbeatTimer := 180000 }).1.heartbeatTimer) := by
  decide

/-- C13: the handler calls `openInjectionValve` exactly when the byte is 0x2A and the phase
is an abort variant, and `closeInjectionValve` exactly when the byte is 0x2B and the
phase is an abort variant; it makes at most that one call; on 0x2A or 0x2B the
control state is unchanged, and in a non-abort phase no valve is called on them. -/
theorem injection_valve_only_on_command_in_abort (rx : Nat) (c : ControlState) :
    (ValveCall.openInjectionValve ∈ (HAL_UART_RxCpltCallback_USART2 rx c).2 ↔
      rx = 0x2A ∧ IS_ABORT_PHASE c.flightPhase = true) ∧
    (ValveCall.closeInjectionValve ∈ (HAL_UART_RxCpltCallback_USART2 rx c).2 ↔
      rx = 0x2B ∧ IS_ABORT_PHASE c.flightPhase = true) ∧
    ((rx = 0x2A ∨ rx = 0x2B) → (HAL_UART_RxCpltCallback_USART2 rx c).1 = c) ∧
    ((rx = 0x2A ∨ rx = 0x2B) → IS_ABORT_PHASE c.flightPhase = false →
      HAL_UART_RxCpltCallback_USART2 rx c = (c, [])) := by
  unfold HAL_UART_RxCpltCallback_USART2
  simp only [LAUNCH_CMD_BYTE, ARM_CMD_BYTE, ABORT_CMD_BYTE, RESET_AVIONICS_CMD_BYTE,
    HEARTBEAT_BYTE, OPEN_INJECTION_VALVE, CLOSE_INJECTION_VALVE, getCurrentFlightPhase,
    newFlightPhase]
  split_ifs <;> simp_all

/-- Witness of C13: 0x2A in an abort phase opens the valve, 0x2A in COAST does nothing. -/
theorem injection_valve_only_on_command_in_abort_witness :
    ValveCall.openInjectionValve ∈
      (HAL_UART_RxCpltCallback_USART2 0x2A
        { flightPhase := ABORT_OXIDIZER_PRESSURE, launchCmdReceived := 0, abortCmdReceived := 0,
          resetAvionicsCmdReceived := 0, heartbeatTimer := 9 }).2 ∧
    HAL_UART_RxCpltCallback_USART2 0x2A
        { flightPhase := COAST, launchCmdReceived := 0, abortCmdReceived := 0,
          resetAvionicsCmdReceived := 0, heartbeatTimer := 9 } =
      ({ flightPhase := COAST, launchCmdReceived := 0, abortCmdReceived := 0,
         resetAvionicsCmdReceived := 0, heartbeatTimer := 9 }, []) :=
  ⟨(injection_valve_only_on_command_in_abort 0x2A
      { flightPhase := ABORT_OXIDIZER_PRESSURE, launchCmdReceived := 0, abortCmdReceived := 0,
        resetAvionicsCmdReceived := 0, heartbeatTimer := 9 }).1.2 ⟨rfl, rfl⟩,
   (injection_valve_only_on_command_in_abort 0x2A
      { flightPhase := COAST, launchCmdReceived := 0, abortCmdReceived := 0,
        resetAvionicsCmdReceived := 0, heartbeatTimer := 9 }).2.2.2 (Or.inl rfl) rfl⟩

/-- C14: a byte that is none of the seven command bytes leaves the whole control state
unchanged and calls no valve; the seven command bytes are pairwise distinct; and
whatever the byte, the handler does nothing or exactly one of the seven actions
of the table. -/
theorem unknown_bytes_ignored_and_one_action_per_byte (rx : Nat) (c : ControlState) :
    (rx ≠ 0x20 → rx ≠ 0x21 → rx ≠ 0x2F → rx ≠ 0x4F → rx ≠ 0x46 → rx ≠ 0x2A → rx ≠ 0x2B →
      HAL_UART_RxCpltCallback_USART2 rx c = (c, [])) ∧
    [LAUNCH_CMD_BYTE, ARM_CMD_BYTE, ABORT_CMD_BYTE, RESET_AVIONICS_CMD_BYTE, HEARTBEAT_BYTE,
      OPEN_INJECTION_VALVE, CLOSE_INJECTION_VALVE].Nodup ∧
    [LAUNCH_CMD_BYTE, ARM_CMD_BYTE, ABORT_CMD_BYTE, RESET_AVIONICS_CMD_BYTE, HEARTBEAT_BYTE,
      OPEN_INJECTION_VALVE, CLOSE_INJECTION_VALVE] = [0x20, 0x21, 0x2F, 0x4F, 0x46, 0x2A, 0x2B] ∧
    (HAL_UART_RxCpltCallback_USART2 rx c = (c, []) ∨
      HAL_UART_RxCpltCallback_USART2 rx c =
        ({ c with launchCmdReceived := (c.launchCmdReceived + 1) % 256 }, []) ∨
      HAL_UART_RxCpltCallback_USART2 rx c = ({ c with flightPhase := ARM }, []) ∨
      HAL_UART_RxCpltCallback_USART2 rx c = ({ c with abortCmdReceived := 1 }, []) ∨
      HAL_UART_RxCpltCallback_USART2 rx c = ({ c with resetAvionicsCmdReceived := 1 }, []) ∨
      HAL_UART_RxCpltCallback_USART2 rx c = ({ c with heartbeatTimer := HEARTBEAT_TIMEOUT }, []) ∨
      HAL_UART_RxCpltCallback_USART2 rx c = (c, [ValveCall.openInjectionValve]) ∨
      HAL_UART_RxCpltCallback_USART2 rx c = (c, [ValveCall.closeInjectionValve])) := by
  refine ⟨?_, by decide, by decide, ?_⟩
  · intro h1 h2 h3 h4 h5 h6 h7
    simp [HAL_UART_RxCpltCallback_USART2, LAUNCH_CMD_BYTE, ARM_CMD_BYTE, ABORT_CMD_BYTE,
      RESET_AVIONICS_CMD_BYTE, HEARTBEAT_BYTE, OPEN_INJECTION_VALVE, CLOSE_INJECTION_VALVE,
      h1, h2, h3, h4, h5, h6, h7]
  · unfold HAL_UART_RxCpltCallback_USART2
    simp only [newFlightPhase]
    split_ifs <;> simp

/-- Witness of C14: the byte 0x41 in ARM. -/
theorem unknown_bytes_ignored_and_one_action_per_byte_witness :
    HAL_UART_RxCpltCallback_USART2 0x41
        { flightPhase := ARM, launchCmdReceived := 3, abortCmdReceived := 0,
          resetAvionicsCmdReceived := 0, heartbeatTimer := 1200 } =
      ({ flightPhase := ARM, launchCmdReceived := 3, abortCmdReceived := 0,
         resetAvionicsCmdReceived := 0, heartbeatTimer := 1200 }, []) :=
  (unknown_bytes_ignored_and_one_action_per_byte 0x41
      { flightPhase := ARM, launchCmdReceived := 3, abortCmdReceived := 0,
        resetAvionicsCmdReceived := 0, heartbeatTimer := 1200 }).1
    (by decide) (by decide) (by decide) (by decide) (by decide) (by decide) (by decide)

/-! ## Effects of a task step -/

section TaskEffects

variable {R : Type} [LT R] [∀ a b : R, Decidable (a < b)] [IntCast R]

/-- What a step of the parachute task adds to the log: nothing, or the drogue
deployment from inside the coast routine, or the main deployment from inside the
drogue-descent routine. -/
theorem taskStep_log (filterSensors : Filter R) (i : TaskInput R) (t : TaskState R) :
    (taskStep filterSensors i t).log = t.log ∨
    ((taskStep filterSensors i t).log =
        t.log ++ [ejectDrogueParachute, Effect.newFlightPhase DROGUE_DESCENT] ∧
      ∃ l, t.loc = Loc.coast l) ∨
    ((taskStep filterSensors i t).log =
        t.log ++ [ejectMainParachute, Effect.newFlightPhase MAIN_DESCENT] ∧
      ∃ l, t.loc = Loc.drogueDescent l) := by
  unfold taskStep
  cases hloc : t.loc with
  | dispatch =>
    left
    simp only
    unfold dispatch
    cases t.flightPhase <;> rfl
  | prelaunch =>
    left
    simp only
    unfold prelaunchIteration
    split_ifs <;> rfl
  | burn l =>
    left
    simp only [commit, burnIteration_effects, List.append_nil]
  | coast l =>
    simp only [commit]
    rcases coastIteration_effects filterSensors t.vars l i.sample with ⟨he, _⟩ | ⟨he, _⟩
    · left
      rw [he, List.append_nil]
    · right; left
      exact ⟨by rw [he], l, rfl⟩
  | drogueDescent l =>
    simp only [commit]
    rcases drogueDescentIteration_effects filterSensors t.vars l i.sample with ⟨he, _⟩ | ⟨he, _⟩
    · left
      rw [he, List.append_nil]
    · right; right
      exact ⟨by rw [he], l, rfl⟩
  | mainDescent =>
    left
    simp only
    unfold parachutesControlMainDescentRoutine
    split_ifs <;> rfl

/-- No step of an execution writes `GPIO_PIN_RESET` to an e-match line. -/
theorem no_pin_reset_foldl (filterSensors : Filter R) (pin : Pin) :
    ∀ (steps : List (Step R)) (t : TaskState R), Effect.gpioWritePin pin false ∉ t.log →
      Effect.gpioWritePin pin false ∉ (steps.foldl (step filterSensors) t).log := by
  intro steps
  induction steps with
  | nil => intro t h; exact h
  | cons x rest ih =>
    intro t h
    rw [List.foldl_cons]
    apply ih
    cases x with
    | phaseWrite q => exact h
    | task i =>
      show Effect.gpioWritePin pin false ∉ (taskStep filterSensors i t).log
      rcases taskStep_log filterSensors i t with he | ⟨he, _⟩ | ⟨he, _⟩
      · rw [he]; exact h
      · rw [he]
        simp only [List.mem_append, not_or]
        exact ⟨h, by simp [ejectDrogueParachute]⟩
      · rw [he]
        simp only [List.mem_append, not_or]
        exact ⟨h, by simp [ejectMainParachute]⟩

/-- C19: along every execution of the parachute task, whatever the phases written by
other tasks and whatever the sensor inputs, the log never contains a write of
`GPIO_PIN_RESET` to the drogue or to the main e-match line: `closeDrogueParachute`
and `closeMainParachute` are never performed, so a line driven high stays high. -/
theorem ematch_lines_never_driven_low (filterSensors : Filter R) (p : FlightPhase)
    (steps : List (Step R)) :
    closeDrogueParachute ∉ (parachutesControlTask filterSensors p steps).log ∧
    closeMainParachute ∉ (parachutesControlTask filterSensors p steps).log :=
  ⟨no_pin_reset_foldl filterSensors Pin.DROGUE_PARACHUTE steps (taskStart p)
      (by simp [taskStart]),
   no_pin_reset_foldl filterSensors Pin.MAIN_PARACHUTE steps (taskStart p)
      (by simp [taskStart])⟩

/-- The steps made at the dispatcher and inside the prelaunch, burn and main-descent
routines leave the log, the phase cell and the file-scope variables alone. -/
theorem taskStep_quiet (filterSensors : Filter R) (i : TaskInput R) (t : TaskState R)
    (h : t.loc = Loc.dispatch ∨ t.loc = Loc.prelaunch ∨ (∃ l, t.loc = Loc.burn l) ∨
      t.loc = Loc.mainDescent) :
    (taskStep filterSensors i t).log = t.log ∧
    (taskStep filterSensors i t).flightPhase = t.flightPhase ∧
    (taskStep filterSensors i t).vars = t.vars := by
  unfold taskStep
  rcases h with h | h | ⟨l, h⟩ | h
  · rw [h]
    simp only
    unfold dispatch
    split <;> exact ⟨rfl, rfl, rfl⟩
  · rw [h]
    simp only
    unfold prelaunchIteration
    split_ifs <;> exact ⟨rfl, rfl, rfl⟩
  · rw [h]
    simp only [commit, burnIteration_effects, List.append_nil, phaseAfter, true_and]
    unfold burnIteration
    split_ifs <;> rfl
  · rw [h]
    simp only
    unfold parachutesControlMainDescentRoutine
    split_ifs <;> exact ⟨rfl, rfl, rfl⟩

/-- A routine is entered from the dispatcher only, on the phase it is written for. -/
theorem taskStep_enters (filterSensors : Filter R) (i : TaskInput R) (t : TaskState R) :
    ((taskStep filterSensors i t).loc = Loc.prelaunch →
      t.loc = Loc.prelaunch ∨
        (t.loc = Loc.dispatch ∧ (t.flightPhase = PRELAUNCH ∨ t.flightPhase = ARM))) ∧
    (∀ l, (taskStep filterSensors i t).loc = Loc.burn l →
      (∃ l0, t.loc = Loc.burn l0) ∨ (t.loc = Loc.dispatch ∧ t.flightPhase = BURN)) ∧
    (∀ l, (taskStep filterSensors i t).loc = Loc.coast l →
      (∃ l0, t.loc = Loc.coast l0) ∨ (t.loc = Loc.dispatch ∧ t.flightPhase = COAST)) ∧
    (∀ l, (taskStep filterSensors i t).loc = Loc.drogueDescent l →
      (∃ l0, t.loc = Loc.drogueDescent l0) ∨
        (t.loc = Loc.dispatch ∧ t.flightPhase = DROGUE_DESCENT)) := by
  unfold taskStep
  cases hloc : t.loc with
  | dispatch =>
    simp only
    unfold dispatch
    cases hp : t.flightPhase <;> simp [hloc]
  | prelaunch =>
    simp only
    unfold prelaunchIteration
    split_ifs <;> simp [hloc]
  | burn l =>
    simp only [commit]
    split_ifs <;> simp
  | coast l =>
    simp only [commit]
    split_ifs <;> simp
  | drogueDescent l =>
    simp only [commit]
    split_ifs <;> simp
  | mainDescent =>
    simp only
    unfold parachutesControlMainDescentRoutine
    split_ifs <;> simp [hloc]

/-- C20: a step of the parachute task made inside the routine dispatched for PRELAUNCH
and ARM or inside the routine dispatched for BURN (or at the dispatcher itself)
drives no e-match line, requests no transition and leaves `numDescents` unchanged,
whatever the sensor input; a step drives the drogue line high only inside the
coast routine and the main line high only inside the drogue-descent routine; and
these two routines are entered by the dispatcher only, on COAST and on
DROGUE_DESCENT. -/
theorem no_deployment_before_gating_phase (filterSensors : Filter R) (i : TaskInput R)
    (t : TaskState R) :
    ((t.loc = Loc.dispatch ∨ t.loc = Loc.prelaunch ∨ ∃ l, t.loc = Loc.burn l) →
      (taskStep filterSensors i t).log = t.log ∧
      (taskStep filterSensors i t).flightPhase = t.flightPhase ∧
      (taskStep filterSensors i t).vars.numDescents = t.vars.numDescents) ∧
    (∃ eff, (taskStep filterSensors i t).log = t.log ++ eff ∧
      (ejectDrogueParachute ∈ eff → ∃ l, t.loc = Loc.coast l) ∧
      (ejectMainParachute ∈ eff → ∃ l, t.loc = Loc.drogueDescent l)) ∧
    (∀ l, (taskStep filterSensors i t).loc = Loc.coast l →
      (∃ l0, t.loc = Loc.coast l0) ∨ (t.loc = Loc.dispatch ∧ t.flightPhase = COAST)) ∧
    (∀ l, (taskStep filterSensors i t).loc = Loc.drogueDescent l →
      (∃ l0, t.loc = Loc.drogueDescent l0) ∨
        (t.loc = Loc.dispatch ∧ t.flightPhase = DROGUE_DESCENT)) := by
  refine ⟨?_, ?_, (taskStep_enters filterSensors i t).2.2.1,
    (taskStep_enters filterSensors i t).2.2.2⟩
  · intro h
    have hq := taskStep_quiet filterSensors i t (by
      rcases h with h | h | h
      · exact Or.inl h
      · exact Or.inr (Or.inl h)
      · exact Or.inr (Or.inr (Or.inl h)))
    exact ⟨hq.1, hq.2.1, by rw [hq.2.2]⟩
  · rcases taskStep_log filterSensors i t with he | ⟨he, hl⟩ | ⟨he, hl⟩
    · exact ⟨[], by rw [he, List.append_nil], by simp, by simp⟩
    · exact ⟨_, he, fun _ => hl, fun hm => absurd hm (by decide)⟩
    · exact ⟨_, he, fun hd => absurd hd (by decide), fun _ => hl⟩

/-- Witness of C20: a valid, descending tick inside the burn routine with `numDescents`
at 2 changes neither the log, nor the phase, nor the counter. -/
theorem no_deployment_before_gating_phase_witness :
    (taskStep descendingFilter validInput
        { flightPhase := BURN
          loc := Loc.burn { state := { altitude := 500, velocity := 0, acceleration := 0 },
                            elapsedTime := 0 }
          vars := { numDescents := 2,
                    kalmanFilterState := { altitude := 1401, velocity := 0, acceleration := 0 } }
          log := [] }).log = [] ∧
    (taskStep descendingFilter validInput
        { flightPhase := BURN
          loc := Loc.burn { state := { altitude := 500, velocity := 0, acceleration := 0 },
                            elapsedTime := 0 }
          vars := { numDescents := 2,
                    kalmanFilterState := { altitude := 1401, velocity := 0, acceleration := 0 } }
          log := [] }).flightPhase = BURN ∧
    (taskStep descendingFilter validInput
        { flightPhase := BURN
          loc := Loc.burn { state := { altitude := 500, velocity := 0, acceleration := 0 },
                            elapsedTime := 0 }
          vars := { numDescents := 2,
                    kalmanFilterState := { altitude := 1401, velocity := 0, acceleration := 0 } }
          log := [] }).vars.numDescents = 2 :=
  (no_deployment_before_gating_phase descendingFilter validInput
      { flightPhase := BURN
        loc := Loc.burn { state := { altitude := 500, velocity := 0, acceleration := 0 },
                          elapsedTime := 0 }
        vars := { numDescents := 2,
                  kalmanFilterState := { altitude := 1401, velocity := 0, acceleration := 0 } }
        log := [] }).1
    (Or.inr (Or.inr ⟨_, rfl⟩))

end TaskEffects

/-! ## Monotone progress of the phase cell -/

section PhaseProgress

variable {R : Type} [LT R] [∀ a b : R, Decidable (a < b)] [IntCast R]

/-- The handler leaves the phase alone or takes it from PRELAUNCH to ARM. -/
theorem handler_phase (rx : Nat) (c : ControlState) :
    (HAL_UART_RxCpltCallback_USART2 rx c).1.flightPhase = c.flightPhase ∨
    (c.flightPhase = PRELAUNCH ∧ (HAL_UART_RxCpltCallback_USART2 rx c).1.flightPhase = ARM) := by
  unfold HAL_UART_RxCpltCallback_USART2
  simp only [getCurrentFlightPhase, newFlightPhase]
  split_ifs <;> simp_all

/-- A step of the parachute task leaves the phase alone, or writes DROGUE_DESCENT from
inside the coast routine and returns, or writes MAIN_DESCENT from inside the
drogue-descent routine and returns. -/
theorem taskStep_phase (filterSensors : Filter R) (i : TaskInput R) (t : TaskState R) :
    (taskStep filterSensors i t).flightPhase = t.flightPhase ∨
    ((∃ l, t.loc = Loc.coast l) ∧ (taskStep filterSensors i t).flightPhase = DROGUE_DESCENT ∧
      (taskStep filterSensors i t).loc = Loc.dispatch) ∨
    ((∃ l, t.loc = Loc.drogueDescent l) ∧ (taskStep filterSensors i t).flightPhase = MAIN_DESCENT ∧
      (taskStep filterSensors i t).loc = Loc.dispatch) := by
  by_cases hq : t.loc = Loc.dispatch ∨ t.loc = Loc.prelaunch ∨ (∃ l, t.loc = Loc.burn l) ∨
      t.loc = Loc.mainDescent
  · exact Or.inl (taskStep_quiet filterSensors i t hq).2.1
  · unfold taskStep
    cases hloc : t.loc with
    | dispatch => exact absurd (Or.inl hloc) hq
    | prelaunch => exact absurd (Or.inr (Or.inl hloc)) hq
    | burn l => exact absurd (Or.inr (Or.inr (Or.inl ⟨l, hloc⟩))) hq
    | mainDescent => exact absurd (Or.inr (Or.inr (Or.inr hloc))) hq
    | coast l =>
      simp only [commit]
      rcases coastIteration_effects filterSensors t.vars l i.sample with ⟨he, hr⟩ | ⟨he, hr⟩
      · left
        rw [he]; rfl
      · right; left
        refine ⟨⟨l, rfl⟩, ?_, ?_⟩
        · rw [he]; rfl
        · rw [hr]; rfl
    | drogueDescent l =>
      simp only [commit]
      rcases drogueDescentIteration_effects filterSensors t.vars l i.sample with ⟨he, hr⟩ | ⟨he, hr⟩
      · left
        rw [he]; rfl
      · right; right
        refine ⟨⟨l, rfl⟩, ?_, ?_⟩
        · rw [he]; rfl
        · rw [hr]; rfl

/-- Every step of the system preserves `RoutineMatchesPhase`. -/
theorem routineMatchesPhase_flightStep (filterSensors : Filter R) (s : FlightSystem R)
    (x : FlightStep R) (h : RoutineMatchesPhase s) :
    RoutineMatchesPhase (flightStep filterSensors s x) := by
  obtain ⟨hc, hd⟩ := h
  cases x with
  | groundByte rx =>
    simp only [flightStep, RoutineMatchesPhase]
    rcases handler_phase rx s.control with he | ⟨hp, _⟩
    · rw [he]; exact ⟨hc, hd⟩
    · constructor
      · intro l hl
        have := hc l hl
        rw [hp] at this
        exact absurd this (by decide)
      · intro l hl
        have := hd l hl
        rw [hp] at this
        exact absurd this (by decide)
  | otherTask c =>
    simp only [flightStep]
    split_ifs with hg
    · rcases hg with he | ⟨hp, _⟩ | ⟨hp, _⟩
      · exact ⟨fun l hl => by rw [he]; exact hc l hl, fun l hl => by rw [he]; exact hd l hl⟩
      · constructor
        · intro l hl
          have := hc l hl
          rw [hp] at this
          exact absurd this (by decide)
        · intro l hl
          have := hd l hl
          rw [hp] at this
          exact absurd this (by decide)
      · constructor
        · intro l hl
          have := hc l hl
          rw [hp] at this
          exact absurd this (by decide)
        · intro l hl
          have := hd l hl
          rw [hp] at this
          exact absurd this (by decide)
    · exact ⟨hc, hd⟩
  | parachuteTick i =>
    simp only [flightStep, RoutineMatchesPhase, newFlightPhase]
    have hen := taskStep_enters filterSensors i s.task
    rcases taskStep_phase filterSensors i s.task with hp | ⟨_, _, hl⟩ | ⟨_, _, hl⟩
    · rw [hp]
      constructor
      · intro l hl
        rcases hen.2.2.1 l hl with ⟨l0, h0⟩ | ⟨_, h0⟩
        · exact hc l0 h0
        · exact h0
      · intro l hl
        rcases hen.2.2.2 l hl with ⟨l0, h0⟩ | ⟨_, h0⟩
        · exact hd l0 h0
        · exact h0
    · rw [hl]
      exact ⟨fun l h0 => by simp at h0, fun l h0 => by simp at h0⟩
    · rw [hl]
      exact ⟨fun l h0 => by simp at h0, fun l h0 => by simp at h0⟩

theorem routineMatchesPhase_foldl (filterSensors : Filter R) :
    ∀ (steps : List (FlightStep R)) (s : FlightSystem R), RoutineMatchesPhase s →
      RoutineMatchesPhase (steps.foldl (flightStep filterSensors) s) := by
  intro steps
  induction steps with
  | nil => intro s h; exact h
  | cons x rest ih =>
    intro s h
    rw [List.foldl_cons]
    exact ih _ (routineMatchesPhase_flightStep filterSensors s x h)

/-- A step that changes the phase cell in a state with `RoutineMatchesPhase` takes it
from a normal phase to a later normal phase. -/
theorem flightStep_advances (filterSensors : Filter R) (s : FlightSystem R) (x : FlightStep R)
    (h : RoutineMatchesPhase s)
    (hne : (flightStep filterSensors s x).control.flightPhase ≠ s.control.flightPhase) :
    ∃ a b : Nat, normalRank s.control.flightPhase = some a ∧
      normalRank (flightStep filterSensors s x).control.flightPhase = some b ∧ a < b := by
  obtain ⟨hc, hd⟩ := h
  cases x with
  | groundByte rx =>
    simp only [flightStep] at hne ⊢
    rcases handler_phase rx s.control with he | ⟨hp, hq⟩
    · exact absurd he hne
    · rw [hp, hq]
      exact ⟨0, 1, rfl, rfl, by decide⟩
  | otherTask c =>
    simp only [flightStep] at hne ⊢
    split_ifs at hne ⊢ with hg
    · rcases hg with he | ⟨hp, hq⟩ | ⟨hp, hq⟩
      · exact absurd he hne
      · rw [hp, hq]
        exact ⟨1, 2, rfl, rfl, by decide⟩
      · rw [hp, hq]
        exact ⟨2, 3, rfl, rfl, by decide⟩
    · exact absurd rfl hne
  | parachuteTick i =>
    simp only [flightStep, newFlightPhase] at hne ⊢
    rcases taskStep_phase filterSensors i s.task with hp | ⟨⟨l, hl⟩, hq, _⟩ | ⟨⟨l, hl⟩, hq, _⟩
    · exact absurd hp hne
    · rw [hq, hc l hl]
      exact ⟨3, 4, rfl, rfl, by decide⟩
    · rw [hq, hd l hl]
      exact ⟨4, 5, rfl, rfl, by decide⟩

/-- C18: in every execution made of ground-link handler calls, parachute-task steps and
steps of other tasks that only advance the phase from ARM to BURN and from BURN to
COAST, started with the parachute task at its dispatcher and any control state,
every step that changes the phase cell takes it from a normal phase to a
strictly later one in the order PRELAUNCH, ARM, BURN, COAST, DROGUE_DESCENT,
MAIN_DESCENT. -/
theorem phase_changes_are_strictly_forward (filterSensors : Filter R) (c : ControlState)
    (steps : List (FlightStep R)) (x : FlightStep R)
    (hne : (flightStep filterSensors (steps.foldl (flightStep filterSensors) (flightStart c))
        x).control.flightPhase ≠
      (steps.foldl (flightStep filterSensors) (flightStart c)).control.flightPhase) :
    ∃ a b : Nat,
      normalRank (steps.foldl (flightStep filterSensors) (flightStart c)).control.flightPhase =
        some a ∧
      normalRank (flightStep filterSensors (steps.foldl (flightStep filterSensors) (flightStart c))
        x).control.flightPhase = some b ∧
      a < b := by
  have h0 : RoutineMatchesPhase (flightStart c : FlightSystem R) := by
    constructor <;> intro l hl <;> simp [flightStart, taskStart] at hl
  exact flightStep_advances filterSensors _ x (routineMatchesPhase_foldl filterSensors steps _ h0) hne

/-- Witness of C18: from COAST the parachute task enters the coast routine and, after
three descending ticks, moves the phase from COAST (rank 3) to DROGUE_DESCENT
(rank 4). -/
theorem phase_changes_are_strictly_forward_witness :
    ∃ a b : Nat,
      normalRank ([FlightStep.parachuteTick validInput, FlightStep.groundByte 0x21,
          FlightStep.parachuteTick validInput, FlightStep.parachuteTick validInput].foldl
        (flightStep descendingFilter)
        (flightStart { flightPhase := COAST, launchCmdReceived := 1, abortCmdReceived := 0,
                       resetAvionicsCmdReceived := 0, heartbeatTimer := 5000 })).control.flightPhase =
        some a ∧
      normalRank (flightStep descendingFilter
        ([FlightStep.parachuteTick validInput, FlightStep.groundByte 0x21,
            FlightStep.parachuteTick validInput, FlightStep.parachuteTick validInput].foldl
          (flightStep descendingFilter)
          (flightStart { flightPhase := COAST, launchCmdReceived := 1, abortCmdReceived := 0,
                         resetAvionicsCmdReceived := 0, heartbeatTimer := 5000 }))
        (FlightStep.parachuteTick validInput)).control.flightPhase = some b ∧
      a < b :=
  phase_changes_are_strictly_forward descendingFilter
    { flightPhase := COAST, launchCmdReceived := 1, abortCmdReceived := 0,
      resetAvionicsCmdReceived := 0, heartbeatTimer := 5000 }
    [FlightStep.parachuteTick validInput, FlightStep.groundByte 0x21,
      FlightStep.parachuteTick validInput, FlightStep.parachuteTick validInput]
    (FlightStep.parachuteTick validInput) (by decide)

end PhaseProgress

/-! ## Properties of the GPS ingress -/

theorem gpsIngress_append (N : Nat) :
    ∀ (a b : List (Nat × Bool)) (g : GpsIngress),
      gpsIngress N g (a ++ b) =
        ((gpsIngress N (gpsIngress N g a).1 b).1,
          (gpsIngress N g a).2 ++ (gpsIngress N (gpsIngress N g a).1 b).2) := by
  intro a
  induction a with
  | nil => intro b g; simp [gpsIngress]
  | cons x rest ih =>
    intro b g
    obtain ⟨rx, ok⟩ := x
    rw [List.cons_append]
    simp only [gpsIngress, ih, List.append_assoc]

theorem take_succ_set_self {A : Type} (l : List A) (n : Nat) (a : A) (h : n < l.length) :
    (l.set n a).take (n + 1) = l.take n ++ [a] := by
  induction l generalizing n with
  | nil => simp at h
  | cons x xs ih =>
    cases n with
    | zero => simp
    | succ n => simp [ih n (by simpa using h)]

/-- The character `'$'` starts a frame from any state. -/
theorem gpsIngressChar_dollar (N : Nat) (g : GpsIngress) (ok : Bool) :
    gpsIngressChar N g CHAR_DOLLAR ok =
      ({ g with rx_buffer := g.rx_buffer.set 0 CHAR_DOLLAR, rx_index := 1, gpggaDetected := 0 },
        none) := by
  simp [gpsIngressChar, CHAR_DOLLAR, CHAR_CR, CHAR_LF]

/-- A plain character that continues a frame is appended to it. -/
theorem gpsIngressChar_holds (N : Nat) (g : GpsIngress) (pfx : List Nat) (rx : Nat) (ok : Bool)
    (hg : GpsHolds N g pfx) (hflag : pfx.length < 6 → g.gpggaDetected = 0)
    (hrx : isPlain rx) (hmsg : pfx.length < 6 → message[pfx.length]? = some rx)
    (hlen : pfx.length < N) :
    (gpsIngressChar N g rx ok).2 = none ∧
    GpsHolds N (gpsIngressChar N g rx ok).1 (pfx ++ [rx]) ∧
    (pfx.length + 1 < 6 → (gpsIngressChar N g rx ok).1.gpggaDetected = 0) ∧
    (gpsIngressChar N g rx ok).1.buffer_ = g.buffer_ ∧
    (gpsIngressChar N g rx ok).1.parseFlag_ = g.parseFlag_ := by
  obtain ⟨hi, htake, hbuf, _⟩ := hg
  obtain ⟨h1, h2, h3⟩ := hrx
  have hidx : g.rx_index < g.rx_buffer.length := by omega
  have hset : (g.rx_buffer.set g.rx_index rx).take (pfx.length + 1) = pfx ++ [rx] := by
    rw [← hi, take_succ_set_self _ _ _ hidx, hi, htake]
  have hne : g.rx_index ≠ N := by omega
  have key : gpsIngressChar N g rx ok =
      ({ g with rx_buffer := g.rx_buffer.set g.rx_index rx, rx_index := g.rx_index + 1,
                gpggaDetected :=
                  if g.gpggaDetected = 0 then (if g.rx_index ≥ 6 then 1 else 0)
                  else g.gpggaDetected }, none) := by
    have hm : g.rx_index < 6 → message[g.rx_index]? = some rx := by
      intro h; rw [hi]; exact hmsg (by omega)
    have hfl : g.rx_index < 6 → g.gpggaDetected = 0 := by
      intro h; exact hflag (by omega)
    unfold gpsIngressChar
    simp only [h1, h2, h3, hne, false_or, or_self, if_false]
    split_ifs <;> simp_all
  rw [key]
  refine ⟨rfl, ⟨by simp [hi], by simpa using hset, by simp [hbuf], by simp; omega⟩, ?_, rfl, rfl⟩
  intro h
  have h5 : g.rx_index < 6 := by omega
  have hd : g.gpggaDetected = 0 := hflag (by omega)
  simp [hd]
  omega

/-- Plain characters that continue a frame are accumulated without anything being
published. -/
theorem gpsIngress_holds (N : Nat) :
    ∀ (cs : List (Nat × Bool)) (g : GpsIngress) (pfx : List Nat),
      GpsHolds N g pfx → (pfx.length < 6 → g.gpggaDetected = 0) →
      (∀ (j : Nat) (c : Nat), (cs.map Prod.fst)[j]? = some c →
        isPlain c ∧ (pfx.length + j < 6 → message[pfx.length + j]? = some c)) →
      pfx.length + cs.length ≤ N →
      (gpsIngress N g cs).2 = [] ∧
      GpsHolds N (gpsIngress N g cs).1 (pfx ++ cs.map Prod.fst) ∧
      (gpsIngress N g cs).1.buffer_ = g.buffer_ ∧
      (gpsIngress N g cs).1.parseFlag_ = g.parseFlag_ := by
  intro cs
  induction cs with
  | nil =>
    intro g pfx hg _ _ _
    simpa [gpsIngress] using hg
  | cons x rest ih =>
    intro g pfx hg hflag hcs hlen
    obtain ⟨rx, ok⟩ := x
    have h0 := hcs 0 rx (by simp)
    have hlen1 : pfx.length < N := by
      simp only [List.length_cons] at hlen; omega
    obtain ⟨hp, hh, hf, hb, hpf⟩ := gpsIngressChar_holds N g pfx rx ok hg hflag h0.1
      (by simpa using h0.2) hlen1
    have hcs1 : ∀ (j : Nat) (c : Nat), (rest.map Prod.fst)[j]? = some c →
        isPlain c ∧ ((pfx ++ [rx]).length + j < 6 →
          message[(pfx ++ [rx]).length + j]? = some c) := by
      intro j c hj
      have := hcs (j + 1) c (by simpa using hj)
      have he : (pfx ++ [rx]).length + j = pfx.length + (j + 1) := by
        simp only [List.length_append, List.length_singleton]; omega
      rw [he]
      exact this
    have hlen2 : (pfx ++ [rx]).length + rest.length ≤ N := by
      simp only [List.length_append, List.length_cons, List.length_nil] at hlen ⊢
      omega
    obtain ⟨i1, i2, i3, i4⟩ := ih (gpsIngressChar N g rx ok).1 (pfx ++ [rx]) hh
      (by simpa using hf) hcs1 hlen2
    simp only [gpsIngress, hp, Option.toList_none, List.nil_append, List.map_cons]
    refine ⟨i1, ?_, by rw [i3, hb], by rw [i4, hpf]⟩
    simpa using i2

/-- A terminator publishes the frame held, if it starts with `'$'` and the mutex is
free, and resets the parser. -/
theorem gpsIngressChar_terminator (N : Nat) (g : GpsIngress) (pfx : List Nat) (t : Nat)
    (hg : GpsHolds N g pfx) (h0 : pfx[0]? = some CHAR_DOLLAR) (ht : isTerminator t) :
    (gpsIngressChar N g t true).2 = some (pfx ++ [0]) ∧
    (gpsIngressChar N g t true).1.buffer_.take (pfx.length + 1) = pfx ++ [0] ∧
    (gpsIngressChar N g t true).1.parseFlag_ = 1 ∧
    (gpsIngressChar N g t true).1.rx_index = 0 ∧
    (gpsIngressChar N g t true).1.gpggaDetected = 0 := by
  obtain ⟨hi, htake, hbuf, hle⟩ := hg
  have hpos : 0 < pfx.length := by
    rcases pfx with _ | ⟨a, l⟩
    · simp at h0
    · simp
  have hidx : g.rx_index < g.rx_buffer.length := by omega
  have hset : (g.rx_buffer.set g.rx_index 0).take (g.rx_index + 1) = pfx ++ [0] := by
    rw [take_succ_set_self _ _ _ hidx, hi, htake]
  have hfirst : g.rx_buffer[0]? = some CHAR_DOLLAR := by
    rw [← List.getElem?_take_of_lt hpos, htake]; exact h0
  have hne : g.rx_index ≠ 0 := by omega
  have hterm : t = CHAR_CR ∨ t = CHAR_LF := ht
  have key : gpsIngressChar N g t true =
      ({ rx_buffer := g.rx_buffer.set g.rx_index 0, rx_index := 0, gpggaDetected := 0,
         buffer_ := memcpy g.buffer_ (g.rx_buffer.set g.rx_index 0) (g.rx_index + 1),
         parseFlag_ := 1 },
       some ((g.rx_buffer.set g.rx_index 0).take (g.rx_index + 1))) := by
    unfold gpsIngressChar
    simp [hterm, hne, hfirst]
  rw [key]
  refine ⟨by rw [hset], ?_, rfl, rfl, rfl⟩
  show (memcpy g.buffer_ (g.rx_buffer.set g.rx_index 0) (g.rx_index + 1)).take (pfx.length + 1) =
    pfx ++ [0]
  unfold memcpy
  rw [hset]
  exact List.take_left' (by simp)

/-- C16: from any parser state whose `rx_buffer` has its `NMEA_MAX_LENGTH + 1` bytes, a line
made of `$GPGGA` and then characters that are none of `'$'`, `'\r'`, `'\n'`, of total
length at most `NMEA_MAX_LENGTH`, followed by a terminator received while the GPS
mutex is free, is published whole: it is the one frame published, the GPS record
buffer starts with the line and a NUL byte, `parseFlag_` is 1, and the parser is
back at `rx_index = 0`, `gpggaDetected = 0`. -/
theorem gpgga_line_is_published (N : Nat) (g : GpsIngress) (line : List (Nat × Bool))
    (tail : List Nat) (t : Nat)
    (hbuf : g.rx_buffer.length = N + 1)
    (hline : line.map Prod.fst = message ++ tail)
    (htail : ∀ c, c ∈ tail → isPlain c)
    (hlen : line.length ≤ N)
    (ht : isTerminator t) :
    (gpsIngress N g (line ++ [(t, true)])).2 = [message ++ tail ++ [0]] ∧
    (gpsIngress N g (line ++ [(t, true)])).1.buffer_.take (line.length + 1) =
      message ++ tail ++ [0] ∧
    (gpsIngress N g (line ++ [(t, true)])).1.parseFlag_ = 1 ∧
    (gpsIngress N g (line ++ [(t, true)])).1.rx_index = 0 ∧
    (gpsIngress N g (line ++ [(t, true)])).1.gpggaDetected = 0 := by
  have hll : line.length = (message ++ tail).length := by
    rw [← hline, List.length_map]
  rcases line with _ | ⟨⟨d, ok⟩, rest⟩
  · simp [message] at hline
  have hd : d = CHAR_DOLLAR := by
    simp only [List.map_cons, message, List.cons_append, List.cons.injEq] at hline
    exact hline.1
  have hrest : rest.map Prod.fst = [71, 80, 71, 71, 65] ++ tail := by
    simp only [List.map_cons, message, List.cons_append, List.cons.injEq] at hline
    exact hline.2
  subst hd
  have hN : 1 ≤ N := by
    simp only [List.length_cons] at hlen; omega
  -- the state after the dollar sign
  have hg1 : GpsHolds N (gpsIngressChar N g CHAR_DOLLAR ok).1 [CHAR_DOLLAR] := by
    rw [gpsIngressChar_dollar]
    refine ⟨rfl, ?_, by simp [hbuf], by simpa using hN⟩
    have := take_succ_set_self g.rx_buffer 0 CHAR_DOLLAR (by omega)
    simpa using this
  have hflag1 : [CHAR_DOLLAR].length < 6 →
      (gpsIngressChar N g CHAR_DOLLAR ok).1.gpggaDetected = 0 := by
    intro _; rw [gpsIngressChar_dollar]
  have hcs : ∀ (j : Nat) (c : Nat), (rest.map Prod.fst)[j]? = some c →
      isPlain c ∧ ([CHAR_DOLLAR].length + j < 6 → message[[CHAR_DOLLAR].length + j]? = some c) := by
    intro j c hj
    rw [hrest] at hj
    rcases Nat.lt_or_ge j 5 with h5 | h5
    · rw [List.getElem?_append_left (by simpa using h5)] at hj
      have hj5 : j = 0 ∨ j = 1 ∨ j = 2 ∨ j = 3 ∨ j = 4 := by omega
      rcases hj5 with h | h | h | h | h <;> subst h <;>
        simp only [List.getElem?_cons_zero, List.getElem?_cons_succ, Option.some.injEq] at hj <;>
        subst hj <;> exact ⟨by decide, fun _ => by decide⟩
    · rw [List.getElem?_append_right (by simpa using h5)] at hj
      refine ⟨htail c (List.getElem?_mem hj), fun h => ?_⟩
      simp only [List.length_singleton] at h
      omega
  have hlen1 : [CHAR_DOLLAR].length + rest.length ≤ N := by
    simp only [List.length_cons, List.length_nil] at hlen ⊢; omega
  obtain ⟨a1, a2, a3, a4⟩ := gpsIngress_holds N rest _ [CHAR_DOLLAR] hg1 hflag1 hcs hlen1
  have hfull : [CHAR_DOLLAR] ++ rest.map Prod.fst = message ++ tail := by
    rw [hrest]; rfl
  rw [hfull] at a2
  obtain ⟨b1, b2, b3, b4, b5⟩ := gpsIngressChar_terminator N _ (message ++ tail) t a2 rfl ht
  rw [List.cons_append]
  simp only [gpsIngress, gpsIngressChar_dollar, Option.toList_none, List.nil_append]
  rw [gpsIngressChar_dollar] at a1 a2 a3 a4 b1 b2 b3 b4 b5
  rw [gpsIngress_append]
  simp only [gpsIngress, a1, b1, Option.toList_some, List.nil_append, List.append_nil]
  rw [hll] at *
  exact ⟨trivial, b2, b3, b4, b5⟩

/-- Witness of C16: the line `$GPGGA,12` and a carriage return, from the initial state
with a buffer of 82 characters. -/
theorem gpgga_line_is_published_witness :
    (gpsIngress 82 (gpsStart 82)
        ([(36, false), (71, false), (80, true), (71, true), (71, true), (65, true), (44, true),
          (49, false), (50, true)] ++ [(13, true)])).2 =
      [message ++ [44, 49, 50] ++ [0]] ∧
    (gpsIngress 82 (gpsStart 82)
        ([(36, false), (71, false), (80, true), (71, true), (71, true), (65, true), (44, true),
          (49, false), (50, true)] ++ [(13, true)])).1.buffer_.take
        ([(36, false), (71, false), (80, true), (71, true), (71, true), (65, true), (44, true),
          (49, false), (50, true)].length + 1) =
      message ++ [44, 49, 50] ++ [0] ∧
    (gpsIngress 82 (gpsStart 82)
        ([(36, false), (71, false), (80, true), (71, true), (71, true), (65, true), (44, true),
          (49, false), (50, true)] ++ [(13, true)])).1.parseFlag_ = 1 ∧
    (gpsIngress 82 (gpsStart 82)
        ([(36, false), (71, false), (80, true), (71, true), (71, true), (65, true), (44, true),
          (49, false), (50, true)] ++ [(13, true)])).1.rx_index = 0 ∧
    (gpsIngress 82 (gpsStart 82)
        ([(36, false), (71, false), (80, true), (71, true), (71, true), (65, true), (44, true),
          (49, false), (50, true)] ++ [(13, true)])).1.gpggaDetected = 0 :=
  gpgga_line_is_published 82 (gpsStart 82)
    [(36, false), (71, false), (80, true), (71, true), (71, true), (65, true), (44, true),
      (49, false), (50, true)]
    [44, 49, 50] 13 (by decide) (by decide) (by decide) (by decide) (by decide)

/-- C15 (the code at the failing input): from the initial state, with the mutex free,
the characters `$GP` and a carriage return make the ingress publish the frame
`$GP` with its NUL byte and set `parseFlag_`: a published frame that does not start
with the six characters `$GPGGA`. -/
theorem truncated_frame_is_published :
    (gpsIngress 82 (gpsStart 82) [(36, true), (71, true), (80, true), (13, true)]).2 =
      [[36, 71, 80, 0]] ∧
    (gpsIngress 82 (gpsStart 82)
      [(36, true), (71, true), (80, true), (13, true)]).1.buffer_.take 4 = [36, 71, 80, 0] ∧
    (gpsIngress 82 (gpsStart 82)
      [(36, true), (71, true), (80, true), (13, true)]).1.parseFlag_ = 1 ∧
    [36, 71, 80, 0].take 6 ≠ message := by
  decide

theorem getElem?_zero_set_zero {A : Type} (l : List A) (a b : A) (h : a ≠ b) :
    (l.set 0 a)[0]? ≠ some b := by
  cases l with
  | nil => simp
  | cons x xs => simpa using h

theorem getElem?_zero_set_pos {A : Type} (l : List A) (n : Nat) (a : A) (h : n ≠ 0) :
    (l.set n a)[0]? = l[0]? :=
  List.getElem?_set_ne h

theorem gpsIdle_of_first (g : GpsIngress) (h : g.rx_buffer[0]? ≠ some CHAR_DOLLAR) : GpsIdle g :=
  Or.inr h

theorem gpsIdle_of_index (g : GpsIngress) (h : g.rx_index = 0) : GpsIdle g :=
  Or.inl h

/-- A terminator does nothing in an idle state. -/
theorem gpsIngressChar_terminator_idle (N : Nat) (g : GpsIngress) (t : Nat) (ok : Bool)
    (hidle : GpsIdle g) (ht : isTerminator t) :
    gpsIngressChar N g t ok = (g, none) := by
  have hterm : t = CHAR_CR ∨ t = CHAR_LF := ht
  have hc : ¬ (g.rx_index ≠ 0 ∧ g.rx_buffer[0]? = some CHAR_DOLLAR) := by
    rcases hidle with h | h
    · exact fun hh => hh.1 h
    · exact fun hh => h hh.2
  unfold gpsIngressChar
  rw [if_pos hterm, if_neg hc]

/-- After a terminator the ingress is idle. -/
theorem gpsIngressChar_terminator_gives_idle (N : Nat) (g : GpsIngress) (t : Nat) (ok : Bool)
    (ht : isTerminator t) : GpsIdle (gpsIngressChar N g t ok).1 := by
  have hterm : t = CHAR_CR ∨ t = CHAR_LF := ht
  unfold gpsIngressChar
  rw [if_pos hterm]
  by_cases hc : g.rx_index ≠ 0 ∧ g.rx_buffer[0]? = some CHAR_DOLLAR
  · rw [if_pos hc]
    cases ok <;> exact gpsIdle_of_index _ rfl
  · rw [if_neg hc]
    by_cases h0 : g.rx_index = 0
    · exact Or.inl h0
    · exact Or.inr (fun h => hc ⟨h0, h⟩)

/-- Every character preserves `GpsFlagReset`. -/
theorem gpsIngressChar_flagReset (N : Nat) (g : GpsIngress) (rx : Nat) (ok : Bool)
    (h : GpsFlagReset g) : GpsFlagReset (gpsIngressChar N g rx ok).1 := by
  unfold GpsFlagReset at h ⊢
  unfold gpsIngressChar
  split_ifs <;> simp_all

theorem gpsIngress_flagReset (N : Nat) :
    ∀ (cs : List (Nat × Bool)) (g : GpsIngress), GpsFlagReset g →
      GpsFlagReset (gpsIngress N g cs).1 := by
  intro cs
  induction cs with
  | nil => intro g h; exact h
  | cons x rest ih =>
    intro g h
    obtain ⟨rx, ok⟩ := x
    exact ih _ (gpsIngressChar_flagReset N g rx ok h)

/-- A plain character takes the ingress one place further in its buffer or leaves it
idle; it publishes nothing. -/
theorem gpsIngressChar_plain (N : Nat) (g : GpsIngress) (rx : Nat) (ok : Bool)
    (hflag : GpsFlagReset g) (hrx : isPlain rx) :
    (gpsIngressChar N g rx ok).2 = none ∧
    (gpsIngressChar N g rx ok).1.buffer_ = g.buffer_ ∧
    (gpsIngressChar N g rx ok).1.parseFlag_ = g.parseFlag_ ∧
    (GpsIdle g → GpsIdle (gpsIngressChar N g rx ok).1) ∧
    (GpsIdle (gpsIngressChar N g rx ok).1 ∨
      ((gpsIngressChar N g rx ok).1.rx_index = g.rx_index + 1 ∧ g.rx_index ≠ N)) := by
  obtain ⟨h1, h2, h3⟩ := hrx
  have hm0 : message[0]? ≠ some rx := by
    intro h
    have : rx = CHAR_DOLLAR := by
      simp only [message, List.getElem?_cons_zero, Option.some.injEq] at h
      exact h.symm
    exact h1 this
  unfold GpsFlagReset at hflag
  unfold gpsIngressChar
  simp only [h1, h2, h3, or_self, false_or, if_false]
  by_cases hN : g.rx_index = N
  · -- the buffer is full: the character restarts it
    rw [if_pos hN]
    have hidle := gpsIdle_of_first
      { g with rx_buffer := g.rx_buffer.set 0 rx, rx_index := 1, gpggaDetected := 0 }
      (getElem?_zero_set_zero g.rx_buffer rx CHAR_DOLLAR h1)
    exact ⟨rfl, rfl, rfl, fun _ => hidle, Or.inl hidle⟩
  · rw [if_neg hN]
    by_cases h0 : g.rx_index = 0
    · -- nothing held: a plain character is not the first of `$GPGGA`
      have hd : g.gpggaDetected = 0 := hflag h0
      have h6 : ¬ g.rx_index ≥ 6 := by omega
      have hm : ¬ message[g.rx_index]? = some rx := by rw [h0]; exact hm0
      rw [if_pos hd, if_neg h6, if_neg hm]
      have hidle := gpsIdle_of_index { g with rx_index := 0, gpggaDetected := 0 } rfl
      exact ⟨rfl, rfl, rfl, fun _ => hidle, Or.inl hidle⟩
    · -- something held: appended, or dropped on a mismatch
      have happ : ∀ d : Nat, GpsIdle g → GpsIdle
          { g with rx_buffer := g.rx_buffer.set g.rx_index rx, rx_index := g.rx_index + 1, gpggaDetected := d } := by
        intro d hi
        rcases hi with hi | hi
        · exact absurd hi h0
        · refine gpsIdle_of_first _ ?_
          show (g.rx_buffer.set g.rx_index rx)[0]? ≠ some CHAR_DOLLAR
          rw [getElem?_zero_set_pos _ _ _ h0]
          exact hi
      have hdrop := gpsIdle_of_index { g with rx_index := 0, gpggaDetected := 0 } rfl
      split_ifs
      · exact ⟨rfl, rfl, rfl, happ 1, Or.inr ⟨rfl, hN⟩⟩
      · exact ⟨rfl, rfl, rfl, happ g.gpggaDetected, Or.inr ⟨rfl, hN⟩⟩
      · exact ⟨rfl, rfl, rfl, fun _ => hdrop, Or.inl hdrop⟩
      · exact ⟨rfl, rfl, rfl, happ g.gpggaDetected, Or.inr ⟨rfl, hN⟩⟩

/-- Plain characters received in an idle state leave it idle and publish nothing. -/
theorem gpsIngress_plain_idle (N : Nat) :
    ∀ (cs : List (Nat × Bool)) (g : GpsIngress), GpsFlagReset g → GpsIdle g →
      (∀ c, c ∈ cs.map Prod.fst → isPlain c) →
      (gpsIngress N g cs).2 = [] ∧ (gpsIngress N g cs).1.buffer_ = g.buffer_ ∧
      (gpsIngress N g cs).1.parseFlag_ = g.parseFlag_ ∧ GpsIdle (gpsIngress N g cs).1 := by
  intro cs
  induction cs with
  | nil => intro g _ hi _; exact ⟨rfl, rfl, rfl, hi⟩
  | cons x rest ih =>
    intro g hf hi hcs
    obtain ⟨rx, ok⟩ := x
    obtain ⟨p1, p2, p3, p4, _⟩ := gpsIngressChar_plain N g rx ok hf (hcs rx (by simp))
    obtain ⟨i1, i2, i3, i4⟩ := ih _ (gpsIngressChar_flagReset N g rx ok hf) (p4 hi)
      (fun c hc => hcs c (by simp only [List.map_cons, List.mem_cons]; exact Or.inr hc))
    simp only [gpsIngress, p1, Option.toList_none, List.nil_append]
    exact ⟨i1, by rw [i2, p2], by rw [i3, p3], i4⟩

/-- Plain characters received while a frame is held publish nothing, and leave the
ingress idle or as many places further as there were characters. -/
theorem gpsIngress_plain_held (N : Nat) :
    ∀ (cs : List (Nat × Bool)) (g : GpsIngress), GpsFlagReset g →
      (∀ c, c ∈ cs.map Prod.fst → isPlain c) →
      (gpsIngress N g cs).2 = [] ∧ (gpsIngress N g cs).1.buffer_ = g.buffer_ ∧
      (gpsIngress N g cs).1.parseFlag_ = g.parseFlag_ ∧
      (GpsIdle (gpsIngress N g cs).1 ∨
        ((gpsIngress N g cs).1.rx_index = g.rx_index + cs.length ∧
          (g.rx_index ≤ N → g.rx_index + cs.length ≤ N))) := by
  intro cs
  induction cs with
  | nil => intro g _ _; exact ⟨rfl, rfl, rfl, Or.inr ⟨rfl, fun h => h⟩⟩
  | cons x rest ih =>
    intro g hf hcs
    obtain ⟨rx, ok⟩ := x
    have hrest : ∀ c, c ∈ rest.map Prod.fst → isPlain c :=
      fun c hc => hcs c (by simp only [List.map_cons, List.mem_cons]; exact Or.inr hc)
    have hf1 := gpsIngressChar_flagReset N g rx ok hf
    obtain ⟨p1, p2, p3, _, p5⟩ := gpsIngressChar_plain N g rx ok hf (hcs rx (by simp))
    simp only [gpsIngress, p1, Option.toList_none, List.nil_append]
    rcases p5 with hidle | ⟨hidx, hN⟩
    · obtain ⟨i1, i2, i3, i4⟩ := gpsIngress_plain_idle N rest _ hf1 hidle hrest
      exact ⟨i1, by rw [i2, p2], by rw [i3, p3], Or.inl i4⟩
    · obtain ⟨i1, i2, i3, i4⟩ := ih _ hf1 hrest
      refine ⟨i1, by rw [i2, p2], by rw [i3, p3], ?_⟩
      rcases i4 with h | ⟨h, hle⟩
      · exact Or.inl h
      · refine Or.inr ⟨?_, ?_⟩
        · rw [h, hidx, List.length_cons]; omega
        · intro hg
          have := hle (by rw [hidx]; omega)
          rw [hidx] at this
          rw [List.length_cons]; omega

/-- C17: (1) at the start of the stream or right after a terminator, a line of characters
none of which is `'$'` is not published, neither while it is received nor at its
terminator; (2) from any parser state, with `NMEA_MAX_LENGTH` at least 1, a `'$'`
followed by `NMEA_MAX_LENGTH` or more characters that are neither `'$'` nor a
terminator is not published, neither while it is received nor at the terminator
that ends it.  In both cases the GPS record buffer and `parseFlag_` are left as
they were. -/
theorem malformed_frames_are_dropped (N : Nat) :
    (∀ (g : GpsIngress) (line : List (Nat × Bool)) (t : Nat) (ok : Bool),
      (g = gpsStart N ∨ ∃ (pre : List (Nat × Bool)) (t0 : Nat) (ok0 : Bool),
        isTerminator t0 ∧ g = (gpsIngress N (gpsStart N) (pre ++ [(t0, ok0)])).1) →
      (∀ c, c ∈ line.map Prod.fst → isPlain c) → isTerminator t →
      (gpsIngress N g (line ++ [(t, ok)])).2 = [] ∧
      (gpsIngress N g (line ++ [(t, ok)])).1.buffer_ = g.buffer_ ∧
      (gpsIngress N g (line ++ [(t, ok)])).1.parseFlag_ = g.parseFlag_) ∧
    (∀ (g : GpsIngress) (body : List (Nat × Bool)) (t : Nat) (ok okd : Bool),
      1 ≤ N → (∀ c, c ∈ body.map Prod.fst → isPlain c) → N ≤ body.length → isTerminator t →
      (gpsIngress N g ((CHAR_DOLLAR, okd) :: body ++ [(t, ok)])).2 = [] ∧
      (gpsIngress N g ((CHAR_DOLLAR, okd) :: body ++ [(t, ok)])).1.buffer_ = g.buffer_ ∧
      (gpsIngress N g ((CHAR_DOLLAR, okd) :: body ++ [(t, ok)])).1.parseFlag_ = g.parseFlag_) := by
  have hstart : GpsFlagReset (gpsStart N) := fun _ => rfl
  constructor
  · intro g line t ok hg hline ht
    have hgi : GpsFlagReset g ∧ GpsIdle g := by
      rcases hg with hg | ⟨pre, t0, ok0, ht0, hg⟩
      · rw [hg]; exact ⟨hstart, Or.inl rfl⟩
      · rw [hg, gpsIngress_append]
        simp only [gpsIngress]
        exact ⟨gpsIngressChar_flagReset N _ t0 ok0 (gpsIngress_flagReset N pre _ hstart),
          gpsIngressChar_terminator_gives_idle N _ t0 ok0 ht0⟩
    obtain ⟨i1, i2, i3, i4⟩ := gpsIngress_plain_idle N line g hgi.1 hgi.2 hline
    rw [gpsIngress_append]
    simp only [gpsIngress, gpsIngressChar_terminator_idle N _ t ok i4 ht, i1,
      Option.toList_none, List.append_nil]
    exact ⟨trivial, i2, i3⟩
  · intro g body t ok okd hN hbody hlen ht
    rw [List.cons_append]
    simp only [gpsIngress, gpsIngressChar_dollar, Option.toList_none, List.nil_append]
    show _ ∧ _ ∧ _
    have hf1 : GpsFlagReset (gpsIngressChar N g CHAR_DOLLAR okd).1 := by
      rw [gpsIngressChar_dollar]; exact fun _ => rfl
    obtain ⟨i1, i2, i3, i4⟩ := gpsIngress_plain_held N body _ hf1 hbody
    rw [gpsIngressChar_dollar] at i1 i2 i3 i4
    have hidle := i4.resolve_right (fun h => by
      have := h.2 hN
      simp only at this
      omega)
    rw [gpsIngress_append]
    simp only [gpsIngress, gpsIngressChar_terminator_idle N _ t ok hidle ht, i1,
      Option.toList_none, List.append_nil]
    exact ⟨trivial, i2, i3⟩

/-- Witness of C17: after a published line, the line `GPGGA,1` without its `'$'`; and,
with a buffer of 8 characters, a `'$'` followed by 9 characters. -/
theorem malformed_frames_are_dropped_witness :
    ((gpsIngress 82
        (gpsIngress 82 (gpsStart 82) ([(36, true), (71, true)] ++ [(13, true)])).1
        ([(71, true), (80, true), (71, true), (71, true), (65, true), (44, true), (49, true)] ++
          [(10, true)])).2 = [] ∧
      (gpsIngress 82
        (gpsIngress 82 (gpsStart 82) ([(36, true), (71, true)] ++ [(13, true)])).1
        ([(71, true), (80, true), (71, true), (71, true), (65, true), (44, true), (49, true)] ++
          [(10, true)])).1.buffer_ =
        (gpsIngress 82 (gpsStart 82) ([(36, true), (71, true)] ++ [(13, true)])).1.buffer_ ∧
      (gpsIngress 82
        (gpsIngress 82 (gpsStart 82) ([(36, true), (71, true)] ++ [(13, true)])).1
        ([(71, true), (80, true), (71, true), (71, true), (65, true), (44, true), (49, true)] ++
          [(10, true)])).1.parseFlag_ =
        (gpsIngress 82 (gpsStart 82) ([(36, true), (71, true)] ++ [(13, true)])).1.parseFlag_) ∧
    ((gpsIngress 8 (gpsStart 8)
        ((CHAR_DOLLAR, true) ::
          [(71, true), (80, true), (71, true), (71, true), (65, true), (44, true), (49, true),
            (50, true), (51, true)] ++ [(13, true)])).2 = [] ∧
      (gpsIngress 8 (gpsStart 8)
        ((CHAR_DOLLAR, true) ::
          [(71, true), (80, true), (71, true), (71, true), (65, true), (44, true), (49, true),
            (50, true), (51, true)] ++ [(13, true)])).1.buffer_ = (gpsStart 8).buffer_ ∧
      (gpsIngress 8 (gpsStart 8)
        ((CHAR_DOLLAR, true) ::
          [(71, true), (80, true), (71, true), (71, true), (65, true), (44, true), (49, true),
            (50, true), (51, true)] ++ [(13, true)])).1.parseFlag_ = (gpsStart 8).parseFlag_) :=
  ⟨(malformed_frames_are_dropped 82).1
      (gpsIngress 82 (gpsStart 82) ([(36, true), (71, true)] ++ [(13, true)])).1
      [(71, true), (80, true), (71, true), (71, true), (65, true), (44, true), (49, true)]
      10 true (Or.inr ⟨[(36, true), (71, true)], 13, true, by decide, rfl⟩)
      (by decide) (by decide),
   (malformed_frames_are_dropped 8).2 (gpsStart 8)
      [(71, true), (80, true), (71, true), (71, true), (65, true), (44, true), (49, true),
        (50, true), (51, true)]
      13 true true (by decide) (by decide) (by decide) (by decide)⟩

/-! ## Initial sensor records and the launch counter -/

/-- C22 (as amended): before any sensor task has produced a reading, the fields of the
sensor records created in `main` hold the negative values -1, -2, ..., -12 and -17,
one per field; every one of them is negative, and the only field that holds the
sentinel -1 is `accelX_`. -/
theorem initial_sensor_fields_are_distinct_negatives :
    mainSensorRecords.fields = [-1, -2, -3, -4, -5, -6, -7, -8, -9, -10, -11, -12, -17] ∧
    (∀ v, v ∈ mainSensorRecords.fields → v < 0) ∧
    mainSensorRecords.fields.Nodup ∧
    mainSensorRecords.accelX_ = READ_FAILED_SENTINEL ∧
    (mainSensorRecords.fields.filter (fun v => v == READ_FAILED_SENTINEL)).length = 1 := by
  decide

/-- C22 (counterexample): the barometer pressure, which the parachute controller reads,
starts at -10 and not at the sentinel -1; so do eleven other fields. -/
theorem initial_barometer_pressure_is_not_sentinel :
    mainSensorRecords.barometerPressure_ = -10 ∧
    mainSensorRecords.barometerPressure_ ≠ READ_FAILED_SENTINEL ∧
    ¬ (∀ v, v ∈ mainSensorRecords.fields → v = READ_FAILED_SENTINEL) := by
  decide

theorem launch_byte_in_arm_step (c : ControlState) (hp : c.flightPhase = ARM) :
    (HAL_UART_RxCpltCallback_USART2 0x20 c).1 =
      { c with launchCmdReceived := (c.launchCmdReceived + 1) % 256 } := by
  simp [HAL_UART_RxCpltCallback_USART2, LAUNCH_CMD_BYTE, getCurrentFlightPhase, hp]

theorem receiveBytes_launch (n : Nat) :
    ∀ c : ControlState, c.flightPhase = ARM → c.launchCmdReceived < 256 →
      receiveBytes (List.replicate n 0x20) c =
        { c with launchCmdReceived := (c.launchCmdReceived + n) % 256 } := by
  induction n with
  | zero =>
    intro c _ hlt
    simp [receiveBytes, Nat.mod_eq_of_lt hlt]
  | succ n ih =>
    intro c hp hlt
    have hstep := launch_byte_in_arm_step c hp
    unfold receiveBytes at ih ⊢
    rw [List.replicate_succ, List.foldl_cons, hstep]
    have hnext := ih { c with launchCmdReceived := (c.launchCmdReceived + 1) % 256 } hp
      (Nat.mod_lt _ (Nat.succ_pos 255))
    rw [hnext]
    simp only [ControlState.mk.injEq, true_and, and_true]
    omega

/-- C23: starting from 0 and with the phase at ARM, after `n` LAUNCH bytes the 8-bit launch
counter equals `n mod 256` and the phase is still ARM; after 256 LAUNCH bytes it is
back at 0, below the 255 it held one byte earlier. -/
theorem launch_counter_wraps_at_256 (n : Nat) (c : ControlState)
    (hp : c.flightPhase = ARM) (h0 : c.launchCmdReceived = 0) :
    (receiveBytes (List.replicate n 0x20) c).launchCmdReceived = n % 256 ∧
    (receiveBytes (List.replicate n 0x20) c).flightPhase = ARM ∧
    (receiveBytes (List.replicate 256 0x20) c).launchCmdReceived = 0 ∧
    (receiveBytes (List.replicate 256 0x20) c).launchCmdReceived <
      (receiveBytes (List.replicate 255 0x20) c).launchCmdReceived := by
  have hlt : c.launchCmdReceived < 256 := by rw [h0]; decide
  rw [receiveBytes_launch n c hp hlt, receiveBytes_launch 256 c hp hlt,
    receiveBytes_launch 255 c hp hlt, h0]
  exact ⟨by simp, hp, by simp, by simp⟩

/-- Witness of C23: 300 LAUNCH bytes in ARM. -/
theorem launch_counter_wraps_at_256_witness :
    (receiveBytes (List.replicate 300 0x20)
        { flightPhase := ARM, launchCmdReceived := 0, abortCmdReceived := 0,
          resetAvionicsCmdReceived := 0, heartbeatTimer := 180000 }).launchCmdReceived =
      300 % 256 :=
  (launch_counter_wraps_at_256 300
    { flightPhase := ARM, launchCmdReceived := 0, abortCmdReceived := 0,
      resetAvionicsCmdReceived := 0, heartbeatTimer := 180000 } rfl rfl).1

/-! ## Index bounds of the GPS ingress -/

/-- With `NMEA_MAX_LENGTH` at least 1, every character keeps the index at most
`NMEA_MAX_LENGTH` and the buffer at its `NMEA_MAX_LENGTH + 1` bytes. -/
theorem gpsIngressChar_bounds (N : Nat) (g : GpsIngress) (rx : Nat) (ok : Bool) (hN : 1 ≤ N)
    (hidx : g.rx_index ≤ N) (hbuf : g.rx_buffer.length = N + 1) :
    (gpsIngressChar N g rx ok).1.rx_index ≤ N ∧
    (gpsIngressChar N g rx ok).1.rx_buffer.length = N + 1 := by
  unfold gpsIngressChar
  split_ifs <;> simp_all <;> omega

theorem gpsIngress_bounds (N : Nat) (hN : 1 ≤ N) :
    ∀ (cs : List (Nat × Bool)) (g : GpsIngress), g.rx_index ≤ N → g.rx_buffer.length = N + 1 →
      (gpsIngress N g cs).1.rx_index ≤ N ∧ (gpsIngress N g cs).1.rx_buffer.length = N + 1 := by
  intro cs
  induction cs with
  | nil => intro g h1 h2; exact ⟨h1, h2⟩
  | cons x rest ih =>
    intro g h1 h2
    obtain ⟨rx, ok⟩ := x
    obtain ⟨b1, b2⟩ := gpsIngressChar_bounds N g rx ok hN h1 h2
    exact ih _ b1 b2

/-- A frame published by one character is the buffer up to the index, with its NUL. -/
theorem gpsIngressChar_frame_length (N : Nat) (g : GpsIngress) (rx : Nat) (ok : Bool)
    (frame : List Nat) (hidx : g.rx_index ≤ N) (hbuf : g.rx_buffer.length = N + 1)
    (hf : (gpsIngressChar N g rx ok).2 = some frame) :
    frame.length = g.rx_index + 1 ∧ frame.length ≤ N + 1 := by
  unfold gpsIngressChar at hf
  split_ifs at hf
  simp at hf
  subst hf
  simp only [List.length_take, List.length_set, hbuf]
  omega

theorem gpsIngress_frames_bounded (N : Nat) (hN : 1 ≤ N) :
    ∀ (cs : List (Nat × Bool)) (g : GpsIngress), g.rx_index ≤ N → g.rx_buffer.length = N + 1 →
      ∀ frame, frame ∈ (gpsIngress N g cs).2 → frame.length ≤ N + 1 := by
  intro cs
  induction cs with
  | nil => intro g _ _ frame hf; simp [gpsIngress] at hf
  | cons x rest ih =>
    intro g h1 h2 frame hf
    obtain ⟨rx, ok⟩ := x
    obtain ⟨b1, b2⟩ := gpsIngressChar_bounds N g rx ok hN h1 h2
    simp only [gpsIngress, List.mem_append] at hf
    rcases hf with hf | hf
    · have hsome : (gpsIngressChar N g rx ok).2 = some frame := by
        cases hres : (gpsIngressChar N g rx ok).2 with
        | none => rw [hres] at hf; simp at hf
        | some fr =>
          rw [hres] at hf
          simp only [Option.toList_some, List.mem_singleton] at hf
          rw [hf]
      exact (gpsIngressChar_frame_length N g rx ok frame h1 h2 hsome).2
    · exact ih _ b1 b2 frame hf

/-- C21: with `NMEA_MAX_LENGTH` at least 1, from a parser state with `rx_index = 0` and a
buffer of `NMEA_MAX_LENGTH + 1` bytes, after any stream of characters the index is
at most `NMEA_MAX_LENGTH` when the next character is handled; every write that
character makes into `rx_buffer`, the terminating NUL included, is at an index
below `NMEA_MAX_LENGTH + 1`; every read of `message` is at an index below 6; a
frame published by that character has `rx_index + 1` bytes, at most
`NMEA_MAX_LENGTH + 1`; and so has every frame published along the stream. -/
theorem gps_index_stays_in_bounds (N : Nat) (g0 : GpsIngress) (stream : List (Nat × Bool))
    (rx : Nat) (ok : Bool)
    (hN : 1 ≤ N) (h0 : g0.rx_index = 0) (hbuf : g0.rx_buffer.length = N + 1) :
    (gpsIngress N g0 stream).1.rx_index ≤ N ∧
    (gpsIngress N g0 stream).1.rx_buffer.length = N + 1 ∧
    (∀ i, i ∈ gpsWriteIndices N (gpsIngress N g0 stream).1 rx →
      i < (gpsIngress N g0 stream).1.rx_buffer.length) ∧
    (∀ i, i ∈ gpsMessageReadIndices N (gpsIngress N g0 stream).1 rx → i < message.length) ∧
    (∀ frame, (gpsIngressChar N (gpsIngress N g0 stream).1 rx ok).2 = some frame →
      frame.length = (gpsIngress N g0 stream).1.rx_index + 1 ∧ frame.length ≤ N + 1) ∧
    (∀ frame, frame ∈ (gpsIngress N g0 stream).2 → frame.length ≤ N + 1) := by
  have h00 : g0.rx_index ≤ N := by omega
  obtain ⟨b1, b2⟩ := gpsIngress_bounds N hN stream g0 h00 hbuf
  refine ⟨b1, b2, ?_, ?_, ?_, gpsIngress_frames_bounded N hN stream g0 h00 hbuf⟩
  · intro i hi
    rw [b2]
    unfold gpsWriteIndices at hi
    split_ifs at hi <;> simp at hi <;> omega
  · intro i hi
    unfold gpsMessageReadIndices at hi
    split_ifs at hi <;> simp at hi
    simp only [message, List.length_cons, List.length_nil]
    omega
  · intro frame hf
    exact gpsIngressChar_frame_length N _ rx ok frame b1 b2 hf

/-- Witness of C21: after `$GPGGA,1`, with a buffer of 82 characters, the index is 8. -/
theorem gps_index_stays_in_bounds_witness :
    (gpsIngress 82 (gpsStart 82)
      [(36, true), (71, true), (80, true), (71, true), (71, true), (65, true), (44, true),
        (49, true)]).1.rx_index ≤ 82 :=
  (gps_index_stays_in_bounds 82 (gpsStart 82)
    [(36, true), (71, true), (80, true), (71, true), (71, true), (65, true), (44, true),
      (49, true)] 13 true (by decide) rfl (by decide)).1

/-! ## The coast routine inside the task loop -/

section CoastInTask

variable {R : Type} [LT R] [∀ a b : R, Decidable (a < b)] [IntCast R]

/-- While the coast loop has not returned on the samples read so far and has performed
no effect, the task is still inside the coast routine, whatever has been written
into the phase cell meanwhile. -/
theorem coast_steps_follow_loop (filterSensors : Filter R) :
    ∀ (steps : List (Step R)) (t : TaskState R) (l : Locals R), t.loc = Loc.coast l →
      (runLoop (coastIteration filterSensors) t.vars l (samplesOf steps)).returned = false →
      (∀ eff, eff ∈ (runLoop (coastIteration filterSensors) t.vars l (samplesOf steps)).trace →
        eff = []) →
      (steps.foldl (step filterSensors) t).log = t.log ∧
      (steps.foldl (step filterSensors) t).loc =
        Loc.coast (runLoop (coastIteration filterSensors) t.vars l (samplesOf steps)).locals ∧
      (steps.foldl (step filterSensors) t).vars =
        (runLoop (coastIteration filterSensors) t.vars l (samplesOf steps)).vars := by
  intro steps
  induction steps with
  | nil =>
    intro t l hloc _ _
    exact ⟨rfl, hloc, rfl⟩
  | cons x rest ih =>
    intro t l hloc hret heff
    cases x with
    | phaseWrite q =>
      simp only [samplesOf] at hret heff ⊢
      rw [List.foldl_cons]
      exact ih { t with flightPhase := q } l hloc hret heff
    | task i =>
      simp only [samplesOf] at hret heff ⊢
      rw [runLoop_cons] at hret heff ⊢
      rw [List.foldl_cons]
      cases hr : (coastIteration filterSensors t.vars l i.sample).returned
      · simp only [hr, Bool.false_eq_true, if_false] at hret heff ⊢
        have he : (coastIteration filterSensors t.vars l i.sample).effects = [] :=
          heff _ (List.mem_cons_self _ _)
        have hstep : step filterSensors t (Step.task i) =
            { flightPhase := t.flightPhase
              loc := Loc.coast (coastIteration filterSensors t.vars l i.sample).locals
              vars := (coastIteration filterSensors t.vars l i.sample).vars
              log := t.log } := by
          simp [step, taskStep, hloc, commit, he, hr, phaseAfter]
        rw [hstep]
        exact ih _ (coastIteration filterSensors t.vars l i.sample).locals rfl hret
          (fun eff h => heff eff (List.mem_cons_of_mem _ h))
      · simp [hr] at hret

/-- C24: the task being inside the coast routine with `numDescents` at 0, along every
execution, of any length, that interleaves its ticks with arbitrary writes of the
phase cell by other tasks, and whose samples never close three valid descending
ticks in a row, the routine performs no effect (the log is unchanged: no drogue,
no transition) and the task is still inside the routine at the end; on the same
samples the routine entered at elapsed time 0 has an empty trace and has not
returned. -/
theorem coast_never_returns_without_apogee (filterSensors : Filter R) (t : TaskState R)
    (state : KalmanStateVector R) (elapsedTime : Nat) (steps : List (Step R))
    (hloc : t.loc = Loc.coast { state := state, elapsedTime := elapsedTime })
    (hzero : t.vars.numDescents = 0)
    (hnone : ∀ j, j < (samplesOf steps).length →
      apogeeTick filterSensors state (samplesOf steps) j = false) :
    (steps.foldl (step filterSensors) t).log = t.log ∧
    (∃ l, (steps.foldl (step filterSensors) t).loc = Loc.coast l) ∧
    (parachutesControlCoastRoutine filterSensors t.vars state (samplesOf steps)).trace =
      List.replicate (samplesOf steps).length [] ∧
    (parachutesControlCoastRoutine filterSensors t.vars state (samplesOf steps)).returned =
      false := by
  have hvars : t.vars = { numDescents := 0, kalmanFilterState := t.vars.kalmanFilterState } := by
    cases hv : t.vars with
    | mk n kfs =>
      rw [hv] at hzero
      simp only at hzero
      rw [hzero]
  have hgen : ∀ l : Locals R, l.state = state →
      (runLoop (coastIteration filterSensors) t.vars l (samplesOf steps)).trace =
        List.replicate (samplesOf steps).length [] ∧
      (runLoop (coastIteration filterSensors) t.vars l (samplesOf steps)).returned = false := by
    intro l hl
    have h := (coast_loop_general filterSensors t.vars.kalmanFilterState (samplesOf steps) [] 0 l
      (by simp [descentStreak]) (by decide)).2
    rw [← hvars, hl] at h
    exact h (by simpa [apogeeTick] using hnone)
  obtain ⟨h1, h2⟩ := hgen { state := state, elapsedTime := elapsedTime } rfl
  obtain ⟨a1, a2, _⟩ := coast_steps_follow_loop filterSensors steps t _ hloc h2
    (by
      intro eff he
      rw [h1] at he
      exact List.eq_of_mem_replicate he)
  exact ⟨a1, ⟨_, a2⟩, hgen { state := state, elapsedTime := 0 } rfl⟩

end CoastInTask

/-- Witness of C24: inside the coast routine, two descending ticks, an abort written by
another task, two failed reads and a reset to PRELAUNCH: nothing is logged. -/
theorem coast_never_returns_without_apogee_witness :
    ([Step.task validInput, Step.task validInput, Step.phaseWrite ABORT_COMMAND_RECEIVED,
        Step.task { validInput with sample := failedSample },
        Step.task { validInput with sample := failedSample },
        Step.phaseWrite PRELAUNCH].foldl (step descendingFilter)
      { flightPhase := COAST
        loc := Loc.coast { state := { altitude := 9000, velocity := 0, acceleration := 0 },
                           elapsedTime := 0 }
        vars := { numDescents := 0,
                  kalmanFilterState := { altitude := 1401, velocity := 0, acceleration := 0 } }
        log := [] }).log = [] :=
  (coast_never_returns_without_apogee descendingFilter
    { flightPhase := COAST
      loc := Loc.coast { state := { altitude := 9000, velocity := 0, acceleration := 0 },
                         elapsedTime := 0 }
      vars := { numDescents := 0,
                kalmanFilterState := { altitude := 1401, velocity := 0, acceleration := 0 } }
      log := [] }
    { altitude := 9000, velocity := 0, acceleration := 0 } 0
    [Step.task validInput, Step.task validInput, Step.phaseWrite ABORT_COMMAND_RECEIVED,
      Step.task { validInput with sample := failedSample },
      Step.task { validInput with sample := failedSample },
      Step.phaseWrite PRELAUNCH]
    rfl rfl (by decide)).1

/-- C25 (the code at the failing input): a first flight ends the coast routine with
`numDescents` at 3; after a reset to PRELAUNCH and a second ascent the dispatcher
enters the coast routine again with `numDescents` still at 3, and the first valid
descending tick of that entry drives the drogue e-match and requests
DROGUE_DESCENT. -/
theorem coast_reentered_with_stale_counter :
    parachutesControlTask descendingFilter COAST
        [Step.task validInput, Step.task validInput, Step.task validInput, Step.task validInput,
         Step.phaseWrite PRELAUNCH, Step.task validInput,
         Step.phaseWrite ARM, Step.task validInput, Step.task validInput,
         Step.phaseWrite BURN, Step.task validInput, Step.task validInput,
         Step.phaseWrite COAST, Step.task validInput, Step.task validInput] =
      { flightPhase := COAST
        loc := Loc.coast { state := { altitude := 9000, velocity := 0, acceleration := 0 },
                           elapsedTime := 0 }
        vars := { numDescents := 3,
                  kalmanFilterState := { altitude := 1401, velocity := 0, acceleration := 0 } }
        log := [ejectDrogueParachute, Effect.newFlightPhase DROGUE_DESCENT] } ∧
    parachutesControlTask descendingFilter COAST
        [Step.task validInput, Step.task validInput, Step.task validInput, Step.task validInput,
         Step.phaseWrite PRELAUNCH, Step.task validInput,
         Step.phaseWrite ARM, Step.task validInput, Step.task validInput,
         Step.phaseWrite BURN, Step.task validInput, Step.task validInput,
         Step.phaseWrite COAST, Step.task validInput, Step.task validInput,
         Step.task validInput] =
      { flightPhase := DROGUE_DESCENT
        loc := Loc.dispatch
        vars := { numDescents := 4,
                  kalmanFilterState := { altitude := 1401, velocity := 0, acceleration := 0 } }
        log := [ejectDrogueParachute, Effect.newFlightPhase DROGUE_DESCENT,
                ejectDrogueParachute, Effect.newFlightPhase DROGUE_DESCENT] } := by
  decide

end Avionics
